import Mathlib

/-!
Verification of the RS485 protocol engine of the Jacuzzi-RS485 repository.

The two engine variants are `app/jacuzziRS485.py` (class `JacuzziRS485`) and
`app/sundanceRS485.py` (class `SundanceRS485`).  Both extend `BalboaSpaWifi`
from a vendored `balboa.py` module that is not part of the provided sources;
the handful of base-class constants and helpers the engines use are modelled
from the specification and are marked as such in their doc comments.

Conventions of the shallow embedding:

* Bytes are `Nat`; byte strings are `List Nat`.
* Python exceptions are modelled by `Except PyError`.  Python writes object
  attributes as it goes, so when an exception is raised mid-routine the real
  object keeps the partial updates; since the surrounding receive loop has no
  handler (the exception kills the loop), the partially written state is never
  observed, and the model simply aborts with the error.
* Temperatures and timestamps are `ℚ` (Python floats hold exact halves here).
* Transport effects are reified as a list of `Act` values.
-/

/-- The Python exception kinds raised by the modelled code paths. -/
inductive PyError
  | indexError
  | keyError
  | typeError
  | nameError
  | attributeError
deriving DecidableEq, Repr

/-- Observable side effects on the transport / scheduler. -/
inductive Act
  | write (frame : List Nat)
  | sleep (secs : ℚ)
deriving DecidableEq, Repr

/-- Python list indexing `l[i]` for a non-negative index: the value at `i`,
or an `IndexError` when `i` is out of range. -/
def byte (l : List Nat) (i : Nat) : Except PyError Nat :=
  if i < l.length then .ok (l.getD i 0) else .error .indexError

/-- Python list indexing on an integer-valued list. -/
def byteI (l : List Int) (i : Nat) : Except PyError Int :=
  if i < l.length then .ok (l.getD i 0) else .error .indexError

/-- Python dict lookup `tbl[k]`: the stored value or a `KeyError`. -/
def pyDictGet (tbl : List (Nat × ℚ)) (k : Nat) : Except PyError ℚ :=
  match tbl.lookup k with
  | some v => .ok v
  | none => .error .keyError

/-- Association-list lookup used for `prev_chksums` (a Python dict keyed by
the message-type byte). -/
def lookupA : List (Nat × Nat) → Nat → Option Nat
  | [], _ => none
  | (k', v') :: rest, k => if k' = k then some v' else lookupA rest k

/-- Association-list store `m[k] = v` for `prev_chksums`. -/
def setA : List (Nat × Nat) → Nat → Nat → List (Nat × Nat)
  | [], k, v => [(k, v)]
  | (k', v') :: rest, k, v =>
      if k' = k then (k, v) :: rest else (k', v') :: setA rest k v

theorem byte_ok {l : List Nat} {i : Nat} (h : i < l.length) :
    byte l i = .ok (l.getD i 0) := by
  simp [byte, h]

theorem byteI_ok {l : List Int} {i : Nat} (h : i < l.length) :
    byteI l i = .ok (l.getD i 0) := by
  simp [byteI, h]

theorem setA_self {m : List (Nat × Nat)} {k v : Nat}
    (h : lookupA m k = some v) : setA m k v = m := by
  induction m with
  | nil => simp [lookupA] at h
  | cons p rest ih =>
      obtain ⟨k', v'⟩ := p
      by_cases hk : k' = k
      · subst hk
        simp [lookupA] at h
        simp [setA, h]
      · simp [lookupA, hk] at h
        simp [setA, hk, ih h]

@[simp] theorem exceptBind_ok_eq {α β : Type} (x : α)
    (f : α → Except PyError β) : (Except.ok x >>= f) = f x := rfl

@[simp] theorem exceptBind_error_eq {α β : Type} (e : PyError)
    (f : α → Except PyError β) :
    ((Except.error e : Except PyError α) >>= f) = .error e := rfl

theorem exceptBind_ok {α β : Type} {a : Except PyError α}
    {f : α → Except PyError β} {b : β} (h : a >>= f = .ok b) :
    ∃ x, a = .ok x ∧ f x = .ok b := by
  cases a with
  | ok x => exact ⟨x, rfl, h⟩
  | error e => simp at h

/-- Modelled from the spec: the frame start/end sentinel byte `0x7E`
(spec §6, wire protocol `0x7E LEN CHAN FLAG TYPE ... CHK 0x7E`); the constant
itself lives in the vendored `balboa.py`, which is not under `src/`. -/
def M_STARTEND : Nat := 0x7E

/-- Modelled from the spec: number of pump slots of the base class (six-entry
pump arrays appear throughout `src/app/jacuzziRS485.py`); the constant lives
in the vendored `balboa.py`, which is not under `src/`. -/
def MAX_PUMPS : Nat := 6

/-- Modelled from the spec: Fahrenheit temperature-scale code.  The scale
codes live in the vendored `balboa.py`; `src/app/jacuzziRS485.py` line 108
(`text_tscale = ["Fahrenheit", "Celsius"]`) fixes Fahrenheit at index 0. -/
def TSCALE_F : Nat := 0

/-- Modelled from the spec: Celsius temperature-scale code (index 1 in the
`text_tscale` table of `src/app/jacuzziRS485.py`). -/
def TSCALE_C : Nat := 1

/-- Modelled from the spec: the frame checksum of the vendored `balboa.py`
(`balboa_calc_cs`), a deterministic XOR-fold over the length+payload region
(spec §4.1: "vendor-specific fixed polynomial/XOR-fold over the
length+payload region").  No claim settled in this file depends on the
checksum's numeric value, only on its position inside a frame, so the exact
fold is immaterial here. -/
def balboa_calc_cs (data : List Nat) : Nat :=
  data.foldl (fun a b => a ^^^ b) 0

/-- `DETECT_CHANNEL_STATE_CHANNEL_NOT_FOUND` of both engines: the number of
probe cycles after which a channel is considered available. -/
def DETECT_CHANNEL_STATE_CHANNEL_NOT_FOUND : Nat := 5

/-- `CHECKS_BEFORE_RETRY` of both engines. -/
def CHECKS_BEFORE_RETRY : Int := 2

/-- `NO_CHANGE_REQUESTED` sentinel of both engines. -/
def NO_CHANGE_REQUESTED : Int := -1

/-! ## Jacuzzi dialect (`src/app/jacuzziRS485.py`) -/

/-- The message kinds recognised by `JacuzziRS485.find_balboa_mtype`
(jacuzziRS485.py lines 956-1015).  Type bytes that fall through to the base
class of the vendored `balboa.py` (absent from `src/`) are modelled as
unrecognised, matching the spec's "unrecognized type bytes are logged at
debug level and dropped". -/
inductive JMsgType
  | statusUpdate
  | filterInfoResp
  | panelReq
  | secondaryFilterResp
  | primaryFilterResp
  | pumpStateResp
  | setupParamsResp
  | lightsUpdate
  | clientClearToSend
  | channelAssignmentReq
  | channelAssignmentResponse
  | channelAssignmentAck
  | existingClientReq
  | existingClientResponse
  | clearToSend
  | nothingToSend
  | ccReq
deriving DecidableEq, Repr

/-- The type-byte dispatch table of `JacuzziRS485.find_balboa_mtype`. -/
def jacuzziMtypeOfByte (b : Nat) : Option JMsgType :=
  if b = 0x16 then some .statusUpdate
  else if b = 0x27 then some .filterInfoResp
  else if b = 0x19 then some .panelReq
  else if b = 0x1C then some .secondaryFilterResp
  else if b = 0x1B then some .primaryFilterResp
  else if b = 0x1D then some .pumpStateResp
  else if b = 0x1E then some .setupParamsResp
  else if b = 0x23 then some .lightsUpdate
  else if b = 0x00 then some .clientClearToSend
  else if b = 0x01 then some .channelAssignmentReq
  else if b = 0x02 then some .channelAssignmentResponse
  else if b = 0x03 then some .channelAssignmentAck
  else if b = 0x04 then some .existingClientReq
  else if b = 0x05 then some .existingClientResponse
  else if b = 0x06 then some .clearToSend
  else if b = 0x07 then some .nothingToSend
  else if b = 0x17 then some .ccReq
  else none

/-- `JacuzziRS485.find_balboa_mtype data`: `None` for `data` of fewer than 5
bytes, otherwise the dispatch table applied to the type byte `data[4]`. -/
def jacuzziFindMtype (data : List Nat) : Option JMsgType :=
  if data.length < 5 then none else jacuzziMtypeOfByte (data.getD 4 0)

/-- The session state of a `JacuzziRS485` object: every attribute read or
written by the modelled methods.  The list-valued attributes keep the lengths
fixed by `__init__` (`pump_array`/`pump_status` have six entries,
`light_array`/`light_status` two). -/
structure JacuzziState where
  connected : Bool
  channel : Option Nat
  tempscale : Nat
  timescale : Nat
  pump_array : List Nat
  light_array : List Nat
  circ_pump : Nat
  blower : Nat
  queue : List (List Nat)
  discoveredChannels : List Nat
  activeChannels : List Nat
  detectChannelState : Nat
  prev_chksums : List (Nat × Nat)
  lastupd : ℚ
  time_hour : Nat
  time_minute : Nat
  dayOfWeek : Nat
  dayOfMonth : Nat
  currentMonth : Nat
  currentYear : Nat
  filter2Mode : Nat
  heatModeState : Nat
  spaState : Nat
  heatmode : Nat
  heatstate : Nat
  errorCode : Nat
  statusByte13 : Nat
  curtemp : Option ℚ
  settemp : ℚ
  pump3State : Nat
  pump2State : Nat
  pump1State : Nat
  pump0State : Nat
  pump_status : List Nat
  circ_pump_status : Nat
  isSecondaryOn : Nat
  isPrimaryOn : Nat
  isBlowerOn : Nat
  isUVOn : Nat
  filter_mode : Nat
  blower_status : Nat
  statusByte17 : Nat
  statusByte19 : Nat
  light_status : List Nat
  settingLock : Nat
  accessLock : Nat
  serviceLock : Nat
  statusByte21 : Nat
  statusByte22 : Nat
  statusByte23 : Nat
  clearrayTime : Nat
  waterTime : Nat
  outerFilterTime : Nat
  innerFilterTime : Nat
  spaWifiState : Nat
  statusByte33 : Nat
  statusByte34 : Nat
  statusByte35 : Nat
  statusByte36 : Nat
  SecondaryFilterCycle : Nat
  secFilterByte6 : Nat
  secFilterByte7 : Nat
  filter1StartHour : Nat
  filter1DurationHours : Nat
  filter1Freq : Nat
  setupByte5 : Nat
  setupByte6 : Nat
  pumpStateByte5 : Nat
  pumpStateByte6 : Nat
  pumpStateByte7 : Nat
  pumpStateByte8 : Nat
  pumpStateByte9 : Nat
  pumpStateByte10 : Nat
  numberOfPumps : Nat
  pumpStateByte12 : Nat
  pumpStateByte13 : Nat
  pumpStateByte14 : Nat
  pumpStateByte15 : Nat
  pumpStateByte16 : Nat
  pumpStateByte17 : Nat
  lightMode : Nat
  lightBrightness : Nat
  lightR : Nat
  lightG : Nat
  lightB : Nat


/-- `JacuzziRS485.__init__` (jacuzziRS485.py lines 114-222), together with
the base-class attributes the engine relies on (`pump_status`,
`light_array`, `light_status`, `blower`, `prior` timestamps), modelled from
the spec where `balboa.py` is absent from `src/`. -/
def jacuzziInit : JacuzziState where
  connected := false
  channel := none
  tempscale := TSCALE_C
  timescale := 0
  pump_array := [0, 2, 1, 0, 0, 0]
  light_array := [0, 0]
  circ_pump := 1
  blower := 0
  queue := []
  discoveredChannels := []
  activeChannels := []
  detectChannelState := 0
  prev_chksums := []
  lastupd := 0
  time_hour := 0
  time_minute := 0
  dayOfWeek := 0
  dayOfMonth := 0
  currentMonth := 0
  currentYear := 0
  filter2Mode := 0
  heatModeState := 0
  spaState := 0
  heatmode := 0
  heatstate := 0
  errorCode := 0
  statusByte13 := 0
  curtemp := none
  settemp := 0
  pump3State := 0
  pump2State := 0
  pump1State := 0
  pump0State := 0
  pump_status := [0, 0, 0, 0, 0, 0]
  circ_pump_status := 0
  isSecondaryOn := 0
  isPrimaryOn := 0
  isBlowerOn := 0
  isUVOn := 0
  filter_mode := 1
  blower_status := 0
  statusByte17 := 0
  statusByte19 := 0
  light_status := [0, 0]
  settingLock := 0
  accessLock := 0
  serviceLock := 0
  statusByte21 := 0
  statusByte22 := 0
  statusByte23 := 0
  clearrayTime := 0
  waterTime := 0
  outerFilterTime := 0
  innerFilterTime := 0
  spaWifiState := 0
  statusByte33 := 0
  statusByte34 := 0
  statusByte35 := 0
  statusByte36 := 0
  SecondaryFilterCycle := 0
  secFilterByte6 := 0
  secFilterByte7 := 0
  filter1StartHour := 0
  filter1DurationHours := 0
  filter1Freq := 0
  setupByte5 := 0
  setupByte6 := 0
  pumpStateByte5 := 0
  pumpStateByte6 := 0
  pumpStateByte7 := 0
  pumpStateByte8 := 0
  pumpStateByte9 := 0
  pumpStateByte10 := 0
  numberOfPumps := 0
  pumpStateByte12 := 0
  pumpStateByte13 := 0
  pumpStateByte14 := 0
  pumpStateByte15 := 0
  pumpStateByte16 := 0
  pumpStateByte17 := 0
  lightMode := 0
  lightBrightness := 0
  lightR := 0
  lightG := 0
  lightB := 0

/-- Modelled from the spec: 12-hour timescale code of the vendored
`balboa.py` (value immaterial to the claims; only which branch is taken
matters). -/
def TIMESCALE_12H : Nat := 0

/-- Modelled from the spec: 24-hour timescale code of the vendored
`balboa.py`. -/
def TIMESCALE_24H : Nat := 1

/-- The raw byte values read by `JacuzziRS485.parse_status_update`
(jacuzziRS485.py lines 538-785): the unconditional bytes 5..27, the declared
length byte `data[1]`, and the length-gated optional groups. -/
structure JFields where
  d5 : Nat
  d6 : Nat
  d7 : Nat
  d8 : Nat
  d9 : Nat
  d10 : Nat
  d11 : Nat
  d12 : Nat
  d13 : Nat
  d14 : Nat
  d15 : Nat
  d16 : Nat
  d17 : Nat
  d18 : Nat
  d19 : Nat
  d20 : Nat
  d21 : Nat
  d22 : Nat
  d23 : Nat
  d24 : Nat
  d25 : Nat
  d26 : Nat
  d27 : Nat
  d1 : Nat
  outerPair : Option (Nat × Nat)
  innerPair : Option (Nat × Nat)
  wifiByte : Option Nat
  extraBytes : Option (Nat × Nat × Nat × Nat)


/-- The byte reads of `JacuzziRS485.parse_status_update` in source order.
Bytes 28..36 are read only behind the declared-length (`data[1]`) guards of
lines 750-782. -/
def jacuzziReadStatus (data : List Nat) : Except PyError JFields := do
  let d5 ← byte data 5
  let d6 ← byte data 6
  let d7 ← byte data 7
  let d8 ← byte data 8
  let d9 ← byte data 9
  let d10 ← byte data 10
  let d11 ← byte data 11
  let d12 ← byte data 12
  let d13 ← byte data 13
  let d14 ← byte data 14
  let d15 ← byte data 15
  let d16 ← byte data 16
  let d17 ← byte data 17
  let d18 ← byte data 18
  let d19 ← byte data 19
  let d20 ← byte data 20
  let d21 ← byte data 21
  let d22 ← byte data 22
  let d23 ← byte data 23
  let d24 ← byte data 24
  let d25 ← byte data 25
  let d26 ← byte data 26
  let d27 ← byte data 27
  let d1 ← byte data 1
  let outerPair ←
    if 30 ≤ d1 then do
      let a ← byte data 28
      let b ← byte data 29
      pure (some (a, b))
    else pure none
  let innerPair ←
    if 32 ≤ d1 then do
      let a ← byte data 30
      let b ← byte data 31
      pure (some (a, b))
    else pure none
  let wifiByte ←
    if 33 ≤ d1 then do
      let a ← byte data 32
      pure (some a)
    else pure none
  let extraBytes ←
    if 37 ≤ d1 then do
      let a ← byte data 33
      let b ← byte data 34
      let c ← byte data 35
      let d ← byte data 36
      pure (some (a, b, c, d))
    else pure none
  .ok ⟨d5, d6, d7, d8, d9, d10, d11, d12, d13, d14, d15, d16, d17, d18, d19,
       d20, d21, d22, d23, d24, d25, d26, d27, d1,
       outerPair, innerPair, wifiByte, extraBytes⟩

/-- The pump-status loop of `parse_status_update` (lines 611-620): slots
whose `pump_array` entry is non-zero and whose index is below 4 are decoded
from two bits of byte 15. -/
def updPumps (pa : List Nat) (d15 : Nat) (ps : List Nat) : List Nat :=
  (List.range 6).foldl
    (fun acc i =>
      if pa.getD i 0 ≠ 0 ∧ i < 4 then acc.set i ((d15 >>> (i * 2)) &&& 0x03)
      else acc) ps

/-- The light-status loop of `parse_status_update` (lines 700-707). -/
def updLights (la : List Nat) (d19 : Nat) (ls : List Nat) : List Nat :=
  (List.range 2).foldl
    (fun acc i =>
      if la.getD i 0 ≠ 0 then acc.set i (((d19 >>> (i * 2)) &&& 0x03) >>> 1)
      else acc) ls

/-- The field updates of `JacuzziRS485.parse_status_update` applied to the
session snapshot.  `curtemp` and `settemp` are divided by 2 exactly when the
session's current `tempscale` (the value before this update) is Celsius;
`curtemp` has the 255 "sensor unavailable" guard, `settemp` does not
(lines 588-597).  `tempscale`/`timescale` are then re-derived from byte 18
(lines 686-695). -/
def jacuzziApplyStatus (now : ℚ) (f : JFields) (s : JacuzziState) :
    JacuzziState :=
  { s with
    time_hour := f.d5
    time_minute := f.d6
    dayOfWeek := (f.d7 &&& 0xE0) >>> 5
    dayOfMonth := f.d7 &&& 0x1F
    currentMonth := f.d8
    currentYear := f.d9 + 2000
    filter2Mode := (f.d10 &&& 0xC0) >>> 6
    heatModeState := (f.d10 &&& 0x30) >>> 4
    spaState := f.d10 &&& 0x0F
    heatmode := (f.d10 >>> 4) &&& 0x03
    heatstate := (f.d10 &&& 0x30) >>> 4
    errorCode := f.d11
    statusByte13 := f.d13
    curtemp :=
      if f.d12 = 255 then none
      else some ((f.d12 : ℚ) / (if s.tempscale = TSCALE_C then 2 else 1))
    settemp := (f.d14 : ℚ) / (if s.tempscale = TSCALE_C then 2 else 1)
    pump3State := (f.d15 &&& 0xC0) >>> 6
    pump2State := (f.d15 &&& 0x30) >>> 4
    pump1State := (f.d15 &&& 0x0C) >>> 2
    pump0State := f.d15 &&& 0x03
    pump_status := updPumps s.pump_array f.d15 s.pump_status
    circ_pump_status :=
      if s.circ_pump ≠ 0 then (if f.d15 &&& 0x03 ≠ 0 then 1 else 0)
      else s.circ_pump_status
    isSecondaryOn := (f.d16 &&& 0xC0) >>> 6
    isPrimaryOn := (f.d16 &&& 0x30) >>> 4
    isBlowerOn := (f.d16 &&& 0x0C) >>> 2
    isUVOn := f.d16 &&& 0x03
    filter_mode := (f.d16 &&& 0x30) >>> 4
    blower_status :=
      if s.blower ≠ 0 then (f.d16 &&& 0x0C) >>> 2 else s.blower_status
    statusByte17 := f.d17
    timescale := if f.d18 &&& 0x06 = 0 then TIMESCALE_12H else TIMESCALE_24H
    tempscale := if f.d18 &&& 0x01 ≠ 0 then TSCALE_C else TSCALE_F
    statusByte19 := f.d19
    light_status := updLights s.light_array f.d19 s.light_status
    settingLock := (f.d20 &&& 0x30) >>> 4
    accessLock := (f.d20 &&& 0x0C) >>> 2
    serviceLock := f.d20 &&& 0x03
    statusByte21 := f.d21
    statusByte22 := f.d22
    statusByte23 := f.d23
    clearrayTime := f.d24 * 256 + f.d25
    waterTime := f.d26 * 256 + f.d27
    outerFilterTime :=
      match f.outerPair with
      | some (a, b) => a * 256 + b
      | none => s.outerFilterTime
    innerFilterTime :=
      match f.innerPair with
      | some (a, b) => a * 256 + b
      | none => s.innerFilterTime
    spaWifiState :=
      match f.wifiByte with
      | some a => (a &&& 0xF0) >>> 4
      | none => s.spaWifiState
    statusByte33 :=
      match f.extraBytes with
      | some (a, _, _, _) => a
      | none => s.statusByte33
    statusByte34 :=
      match f.extraBytes with
      | some (_, b, _, _) => b
      | none => s.statusByte34
    statusByte35 :=
      match f.extraBytes with
      | some (_, _, c, _) => c
      | none => s.statusByte35
    statusByte36 :=
      match f.extraBytes with
      | some (_, _, _, d) => d
      | none => s.statusByte36
    lastupd := now }

/-- `JacuzziRS485.parse_status_update` as a state transformer: read the raw
bytes (source order), then apply the field updates, finishing with
`lastupd = time.time()`. -/
def jacuzziParseStatusUpdate (now : ℚ) (data : List Nat) (s : JacuzziState) :
    Except PyError JacuzziState :=
  (jacuzziReadStatus data).map (fun f => jacuzziApplyStatus now f s)

/-- Modelled from the spec: `parse_filter_cycle_info` is inherited from the
vendored `balboa.py`, which is absent from `src/`; the spec only says it
decodes filter-cycle parameters into the snapshot, without a byte layout.
No claim depends on its layout, so it is modelled as leaving the snapshot
unchanged. -/
def jacuzziParseFilterCycleInfo (_data : List Nat) (s : JacuzziState) :
    JacuzziState := s

/-- `JacuzziRS485.parse_secondary_filter` (lines 813-826). -/
def jacuzziParseSecondaryFilter (data : List Nat) (s : JacuzziState) :
    Except PyError JacuzziState := do
  let d5 ← byte data 5
  let d6 ← byte data 6
  let d7 ← byte data 7
  .ok { s with SecondaryFilterCycle := d5, secFilterByte6 := d6,
               secFilterByte7 := d7 }

/-- `JacuzziRS485.parse_primary_filtration` (lines 828-850).  The
`>= 0` guards are always true for byte values; the frequency is stored only
when it is 1..4 or 8. -/
def jacuzziParsePrimaryFiltration (data : List Nat) (s : JacuzziState) :
    Except PyError JacuzziState := do
  let d5 ← byte data 5
  let d6 ← byte data 6
  let d7 ← byte data 7
  .ok { s with
        filter1StartHour := d5
        filter1DurationHours := d6
        filter1Freq :=
          if (0 < d7 ∧ d7 ≤ 4) ∨ d7 = 8 then d7 else s.filter1Freq }

/-- `JacuzziRS485.parse_pump_state` (lines 876-915). -/
def jacuzziParsePumpState (data : List Nat) (s : JacuzziState) :
    Except PyError JacuzziState := do
  let d5 ← byte data 5
  let d6 ← byte data 6
  let d7 ← byte data 7
  let d8 ← byte data 8
  let d9 ← byte data 9
  let d10 ← byte data 10
  let d11 ← byte data 11
  let d12 ← byte data 12
  let d13 ← byte data 13
  let d14 ← byte data 14
  let d15 ← byte data 15
  let d16 ← byte data 16
  let d17 ← byte data 17
  let p3 := (d11 &&& 0xC0) >>> 6
  let p2 := (d11 &&& 0x30) >>> 4
  let p1 := (d11 &&& 0x0C) >>> 2
  let p0 := d11 &&& 0x03
  let cnt := (if p3 ≠ 0 then 1 else 0) + (if p2 ≠ 0 then 1 else 0) +
             (if p1 ≠ 0 then 1 else 0) + (if p0 ≠ 0 then 1 else 0)
  .ok { s with
        pumpStateByte5 := d5, pumpStateByte6 := d6, pumpStateByte7 := d7
        pumpStateByte8 := d8, pumpStateByte9 := d9, pumpStateByte10 := d10
        numberOfPumps := cnt
        pump3State := p3, pump2State := p2, pump1State := p1, pump0State := p0
        pumpStateByte12 := d12, pumpStateByte13 := d13, pumpStateByte14 := d14
        pumpStateByte15 := d15, pumpStateByte16 := d16, pumpStateByte17 := d17 }

/-- `JacuzziRS485.parse_setup_parameters` (lines 852-874). -/
def jacuzziParseSetupParameters (data : List Nat) (s : JacuzziState) :
    Except PyError JacuzziState := do
  let d5 ← byte data 5
  let d6 ← byte data 6
  .ok { s with setupByte5 := d5, setupByte6 := d6 }

/-- `JacuzziRS485.parse_light_status_update` (lines 917-939). -/
def jacuzziParseLightStatusUpdate (data : List Nat) (s : JacuzziState) :
    Except PyError JacuzziState := do
  let d5 ← byte data 5
  let d7 ← byte data 7
  let d8 ← byte data 8
  let d9 ← byte data 9
  let d10 ← byte data 10
  .ok { s with lightMode := d5, lightBrightness := d7, lightR := d8,
               lightG := d9, lightB := d10 }

/-- The frame built by `JacuzziRS485.send_message` around a payload:
`[0x7E, LEN, ...payload, checksum, 0x7E]` with `LEN = len(payload) + 2` and
the checksum computed over the LEN byte plus the payload
(lines 519-525). -/
def jacuzziFrame (payload : List Nat) : List Nat :=
  [M_STARTEND, payload.length + 2] ++ payload ++
    [balboa_calc_cs ([payload.length + 2] ++ payload), M_STARTEND]

/-- `JacuzziRS485.send_message` (lines 507-532): a silent no-op when the
connection is down or no channel is assigned; otherwise one frame is written
(transport failures are caught and only logged, so the call never raises). -/
def jacuzziSendMessage (s : JacuzziState) (payload : List Nat) : List Act :=
  if s.connected = true then
    match s.channel with
    | none => []
    | some _ => [.write (jacuzziFrame payload)]
  else []

/-- `JacuzziRS485.change_pump` (lines 352-399).  After the sanity check the
method stores `self.channel` into the outgoing byte array, which raises
`TypeError` when the channel is still `None`; otherwise it pushes the
button-press frame `iter = max((newstate - current) % (nstates), 1)` times
with a 1-second sleep after each send. -/
def jacuzziChangePump (s : JacuzziState) (pump newstate : Nat) :
    Except PyError (List Act) := do
  if pump > MAX_PUMPS then .ok [] else do
  let pa ← byte s.pump_array pump
  if newstate > pa then .ok [] else do
  let ps ← byte s.pump_status pump
  if ps = newstate then .ok [] else do
  let mtype := if pump = 1 ∨ pump = 2 ∨ pump = 3 then 0x17 else 0x1A
  let pumpcode := pump + 3
  let c ← match s.channel with
          | some c => Except.ok c
          | none => Except.error PyError.typeError
  let payload := [c, 0xBF, mtype, pumpcode]
  let iter := ((((newstate : Int) - (ps : Int)) % ((pa : Int) + 1)).toNat).max 1
  .ok (List.flatten (List.replicate iter (jacuzziSendMessage s payload ++ [.sleep 1])))

/-- The trailing button-press check of the Jacuzzi `CC_REQ` branch
(lines 1093-1098): reading a non-zero `data[5]` reaches a log call whose
format arguments name the undefined variable `mid`, raising `NameError`. -/
def jacuzziCcTail (s : JacuzziState) (data : List Nat) :
    Except PyError (JacuzziState × List Act) := do
  let b5 ← byte data 5
  if b5 ≠ 0 then .error .nameError else .ok (s, [])

/-- `JacuzziRS485.process_message` (lines 1017-1101).  The per-type checksum
change gate (`has_changed`, lines 224-253) always updates `prev_chksums` and
suppresses every dispatch when the stored checksum matches.  The
`CHANNEL_ASSIGNMENT_RESPONSE` branch calls `self.set_channel(self, data)`
with a surplus argument (`TypeError`), and the opportunistic assignment of
the `CC_REQ` branch calls `self.set_channel(chan)` with an `int`, whose
`set_channel` body then evaluates `chan[5]` (`TypeError`). -/
def jacuzziProcessMessage (now : ℚ) (s : JacuzziState) (data : List Nat) :
    Except PyError (JacuzziState × List Act) := do
  let chanByte ← byte data 2
  match jacuzziFindMtype data with
  | none => .ok (s, [])
  | some mt => do
      let mtval ← byte data 4
      let mchk ← byte data (data.length - 2)
      let sc := { s with prev_chksums := setA s.prev_chksums mtval mchk }
      if lookupA s.prev_chksums mtval = some mchk then .ok (sc, [])
      else
        match mt with
        | .statusUpdate => do
            let s' ← jacuzziParseStatusUpdate now data sc
            .ok (s', [])
        | .filterInfoResp => .ok (jacuzziParseFilterCycleInfo data sc, [])
        | .secondaryFilterResp => do
            let s' ← jacuzziParseSecondaryFilter data sc
            .ok (s', [])
        | .primaryFilterResp => do
            let s' ← jacuzziParsePrimaryFiltration data sc
            .ok (s', [])
        | .pumpStateResp => do
            let s' ← jacuzziParsePumpState data sc
            .ok (s', [])
        | .setupParamsResp => do
            let s' ← jacuzziParseSetupParameters data sc
            .ok (s', [])
        | .lightsUpdate => do
            let s' ← jacuzziParseLightStatusUpdate data sc
            .ok (s', [])
        | .clientClearToSend => .ok (sc, [])
        | .channelAssignmentResponse => .error .typeError
        | .clearToSend =>
            if chanByte ∈ sc.discoveredChannels then
              (if some chanByte = sc.channel then
                match sc.queue with
                | [] => .ok (sc, [])
                | m :: rest => .ok ({ sc with queue := rest }, [.write m])
              else .ok (sc, []))
            else
              .ok ({ sc with
                     discoveredChannels := sc.discoveredChannels ++ [chanByte] },
                   [])
        | .ccReq =>
            if chanByte ∈ sc.activeChannels then
              (if sc.detectChannelState < DETECT_CHANNEL_STATE_CHANNEL_NOT_FOUND
               then
                let s1 := { sc with
                            detectChannelState := sc.detectChannelState + 1 }
                if s1.detectChannelState =
                    DETECT_CHANNEL_STATE_CHANNEL_NOT_FOUND then
                  let sorted :=
                    List.insertionSort (fun a b => a ≤ b) s1.discoveredChannels
                  let s2 := { s1 with discoveredChannels := sorted }
                  match sorted.find? (fun c => decide (c ∉ s2.activeChannels))
                  with
                  | some _ => .error .typeError
                  | none => jacuzziCcTail s2 data
                else jacuzziCcTail s1 data
              else .ok (sc, []))
            else
              .ok ({ sc with activeChannels := sc.activeChannels ++ [chanByte] },
                   [])
        | _ => .ok (sc, [])

/-! ## Sundance dialect (`src/app/sundanceRS485.py`) -/

/-- Message-type byte `STATUS_UPDATE = 0x16` of sundanceRS485.py. -/
def STATUS_UPDATE : Nat := 0x16

/-- Message-type byte `LIGHTS_UPDATE = 0x23`. -/
def LIGHTS_UPDATE : Nat := 0x23

/-- Message-type byte `CC_REQ = 0x17`. -/
def CC_REQ : Nat := 0x17

/-- Message-type byte `CLIENT_CLEAR_TO_SEND = 0x00`. -/
def CLIENT_CLEAR_TO_SEND : Nat := 0x00

/-- Message-type byte `CHANNEL_ASSIGNMENT_RESPONCE = 0x02` (sic). -/
def CHANNEL_ASSIGNMENT_RESPONCE : Nat := 0x02

/-- Message-type byte `EXISTING_CLIENT_REQ = 0x04`. -/
def EXISTING_CLIENT_REQ : Nat := 0x04

/-- Message-type byte `CLEAR_TO_SEND = 0x06`. -/
def CLEAR_TO_SEND : Nat := 0x06

/-- Message-type byte `NOTHING_TO_SEND = 0x07`. -/
def NOTHING_TO_SEND : Nat := 0x07

/-- The pre-encoded `temp_up` button frame of the `button_codes` table. -/
def btnTempUp : List Nat := [0x7E, 0x06, 0x10, 0xBF, 0x17, 0x01, 0x7C, 0x7E]

/-- The pre-encoded `temp_down` button frame of the `button_codes` table. -/
def btnTempDown : List Nat := [0x7E, 0x06, 0x10, 0xBF, 0x17, 0x02, 0x75, 0x7E]

/-- The `temp_convert` dict of sundanceRS485.py (lines 62-96): decrypted
current-temperature byte to degrees Celsius. -/
def temp_convert : List (Nat × ℚ) :=
  [(48, 24), (47, 24.5), (51, 25), (50, 25.5), (53, 26), (52, 26.5),
   (55, 27), (54, 27.5), (57, 28), (56, 28.5), (59, 29), (58, 29.5),
   (61, 30), (60, 30.5), (63, 31), (62, 31.5), (65, 32), (64, 32.5),
   (67, 33), (66, 33.5), (69, 34), (68, 34.5), (71, 35), (70, 35.5),
   (73, 36), (72, 36.5), (75, 37), (74, 37.5), (77, 38), (76, 38.5),
   (79, 39), (78, 39.5), (81, 40)]

/-- The `set_temp_convert` dict of sundanceRS485.py (lines 99-144): decrypted
set-temperature byte to degrees Celsius. -/
def set_temp_convert : List (Nat × ℚ) :=
  [(171, 40), (180, 39.5), (181, 39), (182, 38.5), (183, 38), (176, 37.5),
   (177, 37), (178, 36.5), (179, 36), (188, 35.5), (189, 35), (190, 34.5),
   (191, 34), (184, 33.5), (185, 33), (186, 32.5), (187, 32), (196, 31.5),
   (197, 31), (198, 30.5), (199, 30), (192, 29.5), (193, 29), (194, 28.5),
   (195, 28), (204, 27.5), (205, 27), (206, 26.5), (207, 26), (200, 25.5),
   (201, 25), (202, 24.5), (203, 24), (212, 23.5), (213, 23), (214, 22.5),
   (215, 22), (208, 21.5), (209, 21), (210, 20.5), (211, 20), (220, 19.5),
   (221, 19), (222, 18.5)]

/-- `SundanceRS485.xormsg` (lines 311-316): XOR-fold consecutive byte pairs
with 1; a trailing unpaired byte is dropped. -/
def xormsg : List Nat → List Nat
  | a :: b :: rest => (a ^^^ b ^^^ 1) :: xormsg rest
  | _ => []

/-- The session state of a `SundanceRS485` object: every attribute read or
written by the modelled methods.  `NTS` starts empty (the attribute is first
created by `setMyChan`). -/
structure SundanceState where
  connected : Bool
  channel : Option Nat
  discoveredChannels : List Nat
  activeChannels : List Nat
  detectChannelState : Nat
  queue : List (List Nat)
  NTS : List Nat
  prior_status : Option (List Nat)
  CAprior_status : Option (List Nat)
  targetTemp : ℚ
  checkCounter : Int
  target_pump_status : List Int
  pump_status : List Int
  circ_pump_status : Int
  lastupd : ℚ
  time_hour : Nat
  time_minute : Nat
  autoCirc : Int
  manualCirc : Int
  unknownCirc : Int
  settemp : ℚ
  curtemp : ℚ
  temp2 : ℚ
  tempsensor1 : Nat
  tempsensor2 : Nat
  tempField : Nat
  heatstate : Int
  heatState2 : Int
  displayText : Int
  heatMode : Int
  day : Int
  month : Int
  UnknownField3 : Int
  UnknownField9 : Int
  lightBrightnes : Int
  lightMode : Int
  lightB : Int
  lightG : Int
  lightR : Int
  lightCycleTime : Int
  lightUnknown1 : Int
  lightUnknown3 : Int
  lightUnknown4 : Int
  lightUnknown7 : Int
  lightUnknown9 : Int


/-- `SundanceRS485.__init__` (lines 148-213) together with the base-class
attributes it relies on (modelled from the spec where `balboa.py` is absent
from `src/`). -/
def sundanceInit : SundanceState where
  connected := false
  channel := none
  discoveredChannels := []
  activeChannels := []
  detectChannelState := 0
  queue := []
  NTS := []
  prior_status := none
  CAprior_status := none
  targetTemp := -1
  checkCounter := 0
  target_pump_status := [-1, -1, -1, -1, -1, -1]
  pump_status := [0, 0, 0, 0, 0, 0]
  circ_pump_status := 0
  lastupd := 0
  time_hour := 0
  time_minute := 0
  autoCirc := -1
  manualCirc := -1
  unknownCirc := -1
  settemp := 0
  curtemp := 0
  temp2 := -1
  tempsensor1 := 0
  tempsensor2 := 0
  tempField := 0
  heatstate := 0
  heatState2 := -1
  displayText := -1
  heatMode := -1
  day := -1
  month := -1
  UnknownField3 := -1
  UnknownField9 := -1
  lightBrightnes := -1
  lightMode := -1
  lightB := -1
  lightG := -1
  lightR := -1
  lightCycleTime := -1
  lightUnknown1 := -1
  lightUnknown3 := -1
  lightUnknown4 := -1
  lightUnknown7 := -1
  lightUnknown9 := -1

/-- A value passed to `send_CCmessage`: either a pre-encoded button frame
(`bytes`) or a plain `int` button code. -/
inductive CCVal
  | bytesV (b : List Nat)
  | intV (n : Nat)
deriving DecidableEq, Repr

/-- `SundanceRS485.send_CCmessage` (lines 275-304): a silent no-op when the
connection is down or no channel is assigned.  Otherwise the debug log
formats `val.hex()`, which works for `bytes` values and raises
`AttributeError` for the plain `int` button codes; `bytes` values are
appended to the transmit queue. -/
def sendCCmessage (s : SundanceState) (v : CCVal) :
    Except PyError SundanceState :=
  if s.connected = true then
    match s.channel with
    | none => .ok s
    | some _ =>
        match v with
        | .bytesV b => .ok { s with queue := s.queue ++ [b] }
        | .intV _ => .error .attributeError
  else .ok s

/-- The element-wise comparison loop of `parse_C4status_update`
(lines 341-344): walk the fresh decrypted payload, reading the prior payload
at the same index; stop at the first difference. -/
def anyDiff : List Nat → List Nat → Except PyError Bool
  | [], _ => .ok false
  | _ :: _, [] => .error .indexError
  | a :: as, b :: bs => if a ≠ b then .ok true else anyDiff as bs

/-- The element-wise copy loop (`prior_status[i] = data[i]` over
`range(len(data))`, lines 513-514): indexes of the destination beyond the
source keep their old values; a destination shorter than the source raises
`IndexError`. -/
def copyInto (dst src : List Nat) : Except PyError (List Nat) :=
  if src.length ≤ dst.length then .ok (src ++ dst.drop src.length)
  else .error .indexError

/-- The `have_new_data` block of `parse_C4status_update` (lines 339-347):
with a prior payload, compare element-wise; otherwise report new data and
create a zero-filled prior of the decrypted length. -/
def sundanceNewData (dec : List Nat) (s : SundanceState) :
    Except PyError (Bool × SundanceState) :=
  match s.prior_status with
  | some p => do
      let hn ← anyDiff dec p
      .ok (hn, s)
  | none => .ok (true, { s with prior_status := some (List.replicate dec.length 0) })

/-- The decrypted bytes and table lookups of `parse_C4status_update` in
source order (lines 349-457): index reads 0, 11, 1, 4, the
`set_temp_convert` lookup on byte 4, reads 3, 9, 14, the `temp_convert`
lookup on byte 3, then reads 10, 13, 6, 7, 2. -/
structure C4Fields where
  d0 : Nat
  d11 : Nat
  d1 : Nat
  d4 : Nat
  settempQ : ℚ
  d3 : Nat
  d9 : Nat
  d14 : Nat
  curtempQ : ℚ
  d10 : Nat
  d13 : Nat
  d6 : Nat
  d7 : Nat
  d2 : Nat


/-- The reads of `parse_C4status_update` in source order. -/
def sundanceReadC4 (dec : List Nat) : Except PyError C4Fields := do
  let d0 ← byte dec 0
  let d11 ← byte dec 11
  let d1 ← byte dec 1
  let d4 ← byte dec 4
  let st ← pyDictGet set_temp_convert d4
  let d3 ← byte dec 3
  let d9 ← byte dec 9
  let d14 ← byte dec 14
  let ct ← pyDictGet temp_convert d3
  let d10 ← byte dec 10
  let d13 ← byte dec 13
  let d6 ← byte dec 6
  let d7 ← byte dec 7
  let d2 ← byte dec 2
  .ok ⟨d0, d11, d1, d4, st, d3, d9, d14, ct, d10, d13, d6, d7, d2⟩

/-- The field updates of `parse_C4status_update` (lines 349-457). -/
def sundanceApplyC4 (f : C4Fields) (s : SundanceState) : SundanceState :=
  let circ : Int := ((f.d1 >>> 6) &&& 1 : Nat)
  { s with
    time_hour := f.d0 ^^^ 6
    time_minute := f.d11
    pump_status :=
      ((s.pump_status.set 1 (((f.d1 >>> 2) &&& 1 : Nat) : Int)).set 2 circ).set
        0 (((f.d2 >>> 4) &&& 1 : Nat) : Int)
    circ_pump_status := circ
    autoCirc := ((f.d1 >>> 6) &&& 1 : Nat)
    manualCirc := ((f.d1 >>> 7) &&& 1 : Nat)
    unknownCirc := ((f.d4 >>> 6) &&& 1 : Nat)
    settemp := f.settempQ
    tempsensor1 := f.d3
    tempsensor2 := f.d9
    temp2 := (f.d14 : ℚ) + (if circ = 1 then 32 else 0)
    tempField := f.d3
    curtemp := f.curtempQ
    heatstate := ((f.d10 >>> 6) &&& 1 : Nat)
    heatState2 := ((f.d11 >>> 1) &&& 1 : Nat)
    displayText := (f.d13 : Int)
    heatMode := (f.d6 : Int)
    day := ((f.d7 >>> 3 : Nat) : Int)
    month := ((f.d7 &&& 7 : Nat) : Int)
    UnknownField3 := (f.d3 : Int)
    UnknownField9 := (f.d9 : Int) }

/-- The set-temperature retry block of `parse_C4status_update`
(lines 459-484); the returned flag is the `sendCmd` accumulator. -/
def reconTemp (s : SundanceState) : Except PyError (SundanceState × Bool) :=
  if s.settemp ≠ s.targetTemp ∧ s.targetTemp ≠ (NO_CHANGE_REQUESTED : ℚ) ∧
      s.checkCounter > CHECKS_BEFORE_RETRY then
    (if s.targetTemp < s.settemp then sendCCmessage s (.bytesV btnTempDown)
     else sendCCmessage s (.bytesV btnTempUp)) >>= fun s' =>
      .ok ({ s' with checkCounter := 0 }, false)
  else if s.settemp = s.targetTemp then
    .ok ({ s with targetTemp := NO_CHANGE_REQUESTED }, false)
  else .ok (s, true)

/-- One iteration of the pump retry loop of `parse_C4status_update`
(lines 486-502).  The retry sends a plain `int` button code through
`send_CCmessage` (which raises `AttributeError` once connected with a
channel). -/
def reconPumpStep (p : SundanceState × Bool) (i : Nat) :
    Except PyError (SundanceState × Bool) := do
  let s := p.1
  let sendCmd := p.2
  let ps ← byteI s.pump_status i
  let tg ← byteI s.target_pump_status i
  if ps ≠ tg ∧ tg ≠ NO_CHANGE_REQUESTED then
    if s.checkCounter > CHECKS_BEFORE_RETRY then do
      let s' ← sendCCmessage s
        (.intV (if i = 0 then 228 else if i = 1 then 229 else 239))
      .ok ({ s' with checkCounter := NO_CHANGE_REQUESTED }, sendCmd)
    else .ok (s, sendCmd)
  else if ps = tg then
    .ok ({ s with target_pump_status := s.target_pump_status.set i (-1) },
         sendCmd)
  else .ok (s, true)

/-- The command-retry block of `parse_C4status_update` (lines 459-505):
set-temperature retry, the pump retry loop, then the `checkCounter`
increment when a change is still pending. -/
def sundanceRecon (s : SundanceState) : Except PyError SundanceState := do
  let p1 ← reconTemp s
  let p2 ← (List.range p1.1.target_pump_status.length).foldlM reconPumpStep p1
  .ok (if p2.2 then { p2.1 with checkCounter := p2.1.checkCounter + 1 }
       else p2.1)

/-- The tail of `parse_C4status_update` (lines 507-515): without new data
return; otherwise stamp `lastupd` and copy the decrypted payload over the
prior one. -/
def sundanceFinalizeC4 (now : ℚ) (hnd : Bool) (dec : List Nat)
    (s : SundanceState) : Except PyError SundanceState :=
  if hnd = false then .ok s
  else
    match s.prior_status with
    | none => do
        let p' ← copyInto [] dec
        .ok { s with lastupd := now, prior_status := some p' }
    | some p => do
        let p' ← copyInto p dec
        .ok { s with lastupd := now, prior_status := some p' }

/-- `SundanceRS485.parse_C4status_update` (lines 318-515): decrypt the
payload, detect changes against the prior payload, decode the fields, run
the command-retry reconciliation, then stamp `lastupd` and store the payload
if it was new. -/
def sundanceParseC4 (now : ℚ) (s : SundanceState) (raw : List Nat) :
    Except PyError SundanceState := do
  let dec := xormsg ((raw.drop 5).take (raw.length - 7))
  let hs ← sundanceNewData dec s
  let f ← sundanceReadC4 dec
  let s2 := sundanceApplyC4 f hs.2
  let s3 ← sundanceRecon s2
  sundanceFinalizeC4 now hs.1 dec s3

/-- The decrypted bytes read by `parse_CA_light_status_update`
(lines 545-555) in source order: 1, 4, 2, 6, 8, 9, 0, 3, 5, 7, 9. -/
structure CAFields where
  d1 : Nat
  d4 : Nat
  d2 : Nat
  d6 : Nat
  d8 : Nat
  d9 : Nat
  d0 : Nat
  d3 : Nat
  d5 : Nat
  d7 : Nat


/-- The reads of `parse_CA_light_status_update` in source order. -/
def sundanceReadCA (dec : List Nat) : Except PyError CAFields := do
  let d1 ← byte dec 1
  let d4 ← byte dec 4
  let d2 ← byte dec 2
  let d6 ← byte dec 6
  let d8 ← byte dec 8
  let d9 ← byte dec 9
  let d0 ← byte dec 0
  let d3 ← byte dec 3
  let d5 ← byte dec 5
  let d7 ← byte dec 7
  .ok ⟨d1, d4, d2, d6, d8, d9, d0, d3, d5, d7⟩

/-- `SundanceRS485.parse_CA_light_status_update` (lines 517-571): decrypt,
decode the light fields, then run the `CAprior_status` change detection and
store the payload if it was new (no `lastupd` stamp here). -/
def sundanceParseCA (s : SundanceState) (raw : List Nat) :
    Except PyError SundanceState := do
  let dec := xormsg ((raw.drop 5).take (raw.length - 7))
  let f ← sundanceReadCA dec
  let s1 := { s with
              lightBrightnes := (f.d1 : Int), lightMode := (f.d4 : Int),
              lightB := (f.d2 : Int), lightG := (f.d6 : Int),
              lightR := (f.d8 : Int), lightCycleTime := (f.d9 : Int),
              lightUnknown1 := (f.d0 : Int), lightUnknown3 := (f.d3 : Int),
              lightUnknown4 := (f.d5 : Int), lightUnknown7 := (f.d7 : Int),
              lightUnknown9 := (f.d9 : Int) }
  match s1.CAprior_status with
  | some p => do
      let hn ← anyDiff dec p
      if hn then do
        let p' ← copyInto p dec
        .ok { s1 with CAprior_status := some p' }
      else .ok s1
  | none => do
      let p' ← copyInto (List.replicate dec.length 0) dec
      .ok { s1 with CAprior_status := some p' }

/-- The `NTS` ("nothing to send") frame built by `SundanceRS485.setMyChan`
(lines 573-588) for a freshly assigned channel. -/
def ntsFrame (chan : Nat) : List Nat :=
  [M_STARTEND, 7, chan, 0xBF, CC_REQ, 0, 0,
   balboa_calc_cs [7, chan, 0xBF, CC_REQ, 0, 0], M_STARTEND]

/-- The channel-assignment request frame written by the
`CLIENT_CLEAR_TO_SEND` branch of `SundanceRS485.listen` (lines 624-639),
including the magic nonce bytes `0xF1 0x73`. -/
def channelAssignmentReqFrame : List Nat :=
  [M_STARTEND, 8, 0xFE, 0xBF, 0x01, 0x02, 0xF1, 0x73,
   balboa_calc_cs [8, 0xFE, 0xBF, 0x01, 0x02, 0xF1, 0x73], M_STARTEND]

/-- The channel-assignment acknowledgement frame written by the
`CHANNEL_ASSIGNMENT_RESPONCE` branch of `SundanceRS485.listen`
(lines 643-655). -/
def ackFrame (chan : Nat) : List Nat :=
  [M_STARTEND, 5, chan, 0xBF, 0x03, balboa_calc_cs [5, chan, 0xBF, 0x03],
   M_STARTEND]

/-- The `EXISTING_CLIENT_REQ` branch of `SundanceRS485.listen`
(lines 656-673): `data[2] = self.channel` raises `TypeError` while no
channel is assigned; otherwise the branch allocates `bytearray(9)` and then
assigns `data[9]`, raising `IndexError`. -/
def sundanceExistingClientBranch (s : SundanceState) :
    Except PyError (SundanceState × List Act) :=
  match s.channel with
  | none => .error .typeError
  | some _ => .error .indexError

/-- One iteration of the dispatch in `SundanceRS485.listen`
(lines 610-719) on a received frame. -/
def sundanceListenStep (now : ℚ) (s : SundanceState) (data : List Nat) :
    Except PyError (SundanceState × List Act) := do
  let chanByte ← byte data 2
  let _mid ← byte data 3
  let mtype ← byte data 4
  if mtype = STATUS_UPDATE then do
    let s' ← sundanceParseC4 now s data
    .ok (s', [])
  else if mtype = LIGHTS_UPDATE then do
    let s' ← sundanceParseCA s data
    .ok (s', [])
  else if mtype = CLIENT_CLEAR_TO_SEND then
    if s.channel = none ∧
        s.detectChannelState = DETECT_CHANNEL_STATE_CHANNEL_NOT_FOUND then
      .ok (s, [.write channelAssignmentReqFrame])
    else .ok (s, [])
  else if mtype = CHANNEL_ASSIGNMENT_RESPONCE then do
    let b5 ← byte data 5
    .ok ({ s with channel := some b5, NTS := ntsFrame b5 },
         [.write (ackFrame b5)])
  else if mtype = EXISTING_CLIENT_REQ then sundanceExistingClientBranch s
  else if mtype = CLEAR_TO_SEND then
    if chanByte ∈ s.discoveredChannels then
      (if some chanByte = s.channel then
        match s.queue with
        | [] => .ok (s, [])
        | m :: rest => .ok ({ s with queue := rest }, [.write m])
      else .ok (s, []))
    else
      .ok ({ s with discoveredChannels := s.discoveredChannels ++ [chanByte] },
           [])
  else if mtype = CC_REQ then
    (if chanByte ∈ s.activeChannels then
        (if s.detectChannelState < DETECT_CHANNEL_STATE_CHANNEL_NOT_FOUND then
          let sa := { s with detectChannelState := s.detectChannelState + 1 }
          if sa.detectChannelState = DETECT_CHANNEL_STATE_CHANNEL_NOT_FOUND
          then
            let sorted :=
              List.insertionSort (fun a b => a ≤ b) sa.discoveredChannels
            let sb := { sa with discoveredChannels := sorted }
            match sorted.find? (fun c => decide (c ∉ sb.activeChannels)) with
            | some chan =>
                Except.ok { sb with channel := some chan, NTS := ntsFrame chan }
            | none => Except.ok sb
          else Except.ok sa
        else Except.ok s)
      else
        Except.ok { s with activeChannels := s.activeChannels ++ [chanByte] })
      >>= fun s1 => byte data 5 >>= fun _b5 => .ok (s1, [])
  else .ok (s, [])

/-! ## Helper lemmas -/

@[simp] theorem exceptPure_ok {α : Type} (x : α) :
    (pure x : Except PyError α) = .ok x := rfl

theorem lookupA_setA (m : List (Nat × Nat)) (k v : Nat) :
    lookupA (setA m k v) k = some v := by
  induction m with
  | nil => simp [setA, lookupA]
  | cons p rest ih =>
      obtain ⟨k', v'⟩ := p
      by_cases hk : k' = k
      · simp [setA, hk, lookupA]
      · simp [setA, hk, lookupA, ih]

theorem anyDiff_self (l : List Nat) : anyDiff l l = .ok false := by
  induction l with
  | nil => rfl
  | cons a t ih => simp [anyDiff, ih]

theorem press_dist_pos {cur new pa : Nat} (h1 : cur ≤ pa) (h2 : new ≤ pa)
    (hne : cur ≠ new) :
    0 < ((new : Int) - (cur : Int)) % ((pa : Int) + 1) := by
  rcases lt_trichotomy (cur : Int) (new : Int) with h | h | h
  · rw [Int.emod_eq_of_lt (by omega) (by omega)]
    omega
  · exact absurd (by exact_mod_cast h) hne
  · have hrw : ((new : Int) - cur) % ((pa : Int) + 1) =
        (((new : Int) - cur) + ((pa : Int) + 1) * 1) % ((pa : Int) + 1) :=
      (Int.add_mul_emod_self_left ((new : Int) - cur) ((pa : Int) + 1) 1).symm
    rw [hrw, Int.emod_eq_of_lt (by omega) (by omega)]
    omega

theorem find?_sorted_min {l : List Nat} {p : Nat → Bool} {m : Nat}
    (hs : List.Sorted (fun a b => a ≤ b) l) (h : l.find? p = some m) :
    m ∈ l ∧ p m = true ∧ ∀ x ∈ l, p x = true → m ≤ x := by
  induction l with
  | nil => simp [List.find?] at h
  | cons a t ih =>
      rw [List.sorted_cons] at hs
      cases hpa : p a with
      | true =>
          rw [List.find?_cons, hpa] at h
          obtain rfl : a = m := by injection h
          refine ⟨List.mem_cons_self _ _, hpa, ?_⟩
          intro x hx _
          rcases List.mem_cons.mp hx with rfl | hx
          · exact le_refl _
          · exact hs.1 x hx
      | false =>
          rw [List.find?_cons, hpa] at h
          obtain ⟨hm, hpm, hmin⟩ := ih hs.2 h
          refine ⟨List.mem_cons_of_mem _ hm, hpm, ?_⟩
          intro x hx hpx
          rcases List.mem_cons.mp hx with rfl | hx
          · rw [hpa] at hpx
            exact absurd hpx (by simp)
          · exact hmin x hx hpx

/-! ## Claim theorems -/

/-- The concrete broadcast `ClientClearToSend` probe frame used in the
arbitration scenario: type byte `0x00`, broadcast channel `0xFE`. -/
def cctsFrame : List Nat := [126, 5, 254, 191, 0, 9, 126]

/-- The concrete `ChannelAssignmentResponse` frame of the arbitration
scenario: type byte `0x02`, offered channel 7 in byte 5. -/
def assignRespFrame : List Nat := [126, 8, 254, 191, 2, 7, 0, 0, 60, 126]

/-- A Sundance session that has not been assigned a channel, with the probe
counter at its threshold. -/
def sunArb0 : SundanceState :=
  { sundanceInit with connected := true, detectChannelState := 5 }

/-- The Sundance session after adopting channel 7. -/
def sunArb1 : SundanceState :=
  { sunArb0 with channel := some 7, NTS := ntsFrame 7 }

/-- A Jacuzzi session with no channel and the probe counter at threshold. -/
def jacArb0 : JacuzziState := { jacuzziInit with detectChannelState := 5 }

/-- Claim C1 (code_bug): on the bus event sequence `ClientClearToSend`
(probe counter at threshold) followed by `ChannelAssignmentResponse(7)`, the
Sundance engine behaves exactly as the claim states: it writes one
`ChannelAssignmentRequest`, adopts byte 5 of the response (channel 7), and
writes exactly one `ChannelAssignmentAck`.  The Jacuzzi engine, however,
writes nothing on the probe (its branch only logs "Attempting to send
channel assignment request") and its response handler calls
`self.set_channel(self, data)` with a surplus argument, raising `TypeError`
instead of adopting the channel and acknowledging. -/
theorem c1_arbitration_handshake :
    sundanceListenStep 0 sunArb0 cctsFrame =
      .ok (sunArb0, [.write channelAssignmentReqFrame]) ∧
    channelAssignmentReqFrame.getD 4 0 = 0x01 ∧
    sundanceListenStep 0 sunArb0 assignRespFrame =
      .ok (sunArb1, [.write (ackFrame 7)]) ∧
    sunArb1.channel = some 7 ∧
    (ackFrame 7).getD 4 0 = 0x03 ∧
    ([channelAssignmentReqFrame, ackFrame 7].countP
        (fun f => f.getD 4 0 == 0x03)) = 1 ∧
    jacuzziProcessMessage 0 jacArb0 cctsFrame =
      .ok ({ jacArb0 with prev_chksums := [(0, 9)] }, []) ∧
    jacuzziProcessMessage 0 { jacArb0 with prev_chksums := [(0, 9)] }
        assignRespFrame = .error .typeError := by
  refine ⟨rfl, rfl, rfl, rfl, rfl, rfl, rfl, rfl⟩

/-- Claim C3, counterexample: for the panel-request payload
`[0x0A, 0xBF, 0x19, 0x01, 0x00]` the frame written by the Jacuzzi
`send_message` has LENGTH byte 7, while the count of bytes from the channel
byte through the checksum byte inclusive is 6: the claimed equality fails on
every frame. -/
theorem c3_counterexample :
    jacuzziSendMessage
        { jacuzziInit with connected := true, channel := some 10 }
        [0x0A, 0xBF, 0x19, 0x01, 0x00] =
      [.write (jacuzziFrame [0x0A, 0xBF, 0x19, 0x01, 0x00])] ∧
    (jacuzziFrame [0x0A, 0xBF, 0x19, 0x01, 0x00]).getD 1 0 = 7 ∧
    (jacuzziFrame [0x0A, 0xBF, 0x19, 0x01, 0x00]).length - 3 = 6 ∧
    (jacuzziFrame [0x0A, 0xBF, 0x19, 0x01, 0x00]).getD 1 0 ≠
      (jacuzziFrame [0x0A, 0xBF, 0x19, 0x01, 0x00]).length - 3 := by
  refine ⟨rfl, rfl, rfl, by decide⟩

/-- Claim C3 (amended): the LENGTH byte of every frame built by the Jacuzzi
`send_message` and by the Sundance `setMyChan` equals the count of bytes
from the channel byte through the trailing flag byte inclusive — one more
than the payload-plus-checksum count (which is `length - 3`, the frame minus
its start flag, LENGTH byte and end flag). -/
theorem c3_length_byte_amended (s : JacuzziState) (payload : List Nat)
    (c ch : Nat) (hcon : s.connected = true) (hch : s.channel = some c) :
    jacuzziSendMessage s payload = [.write (jacuzziFrame payload)] ∧
    (jacuzziFrame payload).getD 1 0 = payload.length + 2 ∧
    (jacuzziFrame payload).length = payload.length + 4 ∧
    (jacuzziFrame payload).getD 1 0 =
      ((jacuzziFrame payload).length - 3) + 1 ∧
    (ntsFrame ch).getD 1 0 = ((ntsFrame ch).length - 3) + 1 := by
  refine ⟨?_, rfl, ?_, ?_, rfl⟩
  · simp [jacuzziSendMessage, hcon, hch]
  · simp [jacuzziFrame]
  · simp [jacuzziFrame]

/-- Claim C3, witness for the amended theorem. -/
theorem c3_witness :
    jacuzziSendMessage
        { jacuzziInit with connected := true, channel := some 10 }
        [10, 0xBF, 0x19, 1, 0] =
      [.write (jacuzziFrame [10, 0xBF, 0x19, 1, 0])] ∧
    (jacuzziFrame [10, 0xBF, 0x19, 1, 0]).getD 1 0 = 7 ∧
    (jacuzziFrame [10, 0xBF, 0x19, 1, 0]).length = 9 ∧
    (jacuzziFrame [10, 0xBF, 0x19, 1, 0]).getD 1 0 =
      ((jacuzziFrame [10, 0xBF, 0x19, 1, 0]).length - 3) + 1 ∧
    (ntsFrame 16).getD 1 0 = ((ntsFrame 16).length - 3) + 1 := by
  have h := c3_length_byte_amended
    { jacuzziInit with connected := true, channel := some 10 }
    [10, 0xBF, 0x19, 1, 0] 10 16 rfl rfl
  exact ⟨h.1, h.2.1, h.2.2.1, h.2.2.2.1, h.2.2.2.2⟩

/-- Claim C7: the Jacuzzi `change_pump` sends exactly the modular press
distance `(newstate - current) mod (nstates)` of identical button-press
frames, each followed by a 1-second sleep; for a valid request the distance
is at least one. -/
theorem c7_pump_cycle_button_count
    (s : JacuzziState) (pump newstate c : Nat)
    (hcon : s.connected = true) (hch : s.channel = some c)
    (hpm : pump ≤ MAX_PUMPS)
    (hpa : pump < s.pump_array.length) (hps : pump < s.pump_status.length)
    (hnew : newstate ≤ s.pump_array.getD pump 0)
    (hcur : s.pump_status.getD pump 0 ≤ s.pump_array.getD pump 0)
    (hne : s.pump_status.getD pump 0 ≠ newstate) :
    ∃ d : Nat,
      d = ((((newstate : Int) - (s.pump_status.getD pump 0 : Int)) %
            ((s.pump_array.getD pump 0 : Int) + 1)).toNat) ∧
      1 ≤ d ∧
      jacuzziChangePump s pump newstate =
        .ok (List.flatten (List.replicate d
          [Act.write (jacuzziFrame [c, 0xBF,
              (if pump = 1 ∨ pump = 2 ∨ pump = 3 then 0x17 else 0x1A),
              pump + 3]), Act.sleep 1])) := by
  have hpos := press_dist_pos hcur hnew hne
  refine ⟨_, rfl, by omega, ?_⟩
  have hnotgt : ¬ pump > MAX_PUMPS := by omega
  have hnew2 : ¬ newstate > s.pump_array.getD pump 0 := by omega
  simp only [jacuzziChangePump, hnotgt, if_false, byte_ok hpa, byte_ok hps,
    exceptBind_ok_eq, hnew2, hne, hch, if_neg, ite_false,
    jacuzziSendMessage, hcon, ite_true]
  have hmax : ((((newstate : Int) - (s.pump_status.getD pump 0 : Int)) %
      ((s.pump_array.getD pump 0 : Int) + 1)).toNat).max 1 =
      (((newstate : Int) - (s.pump_status.getD pump 0 : Int)) %
      ((s.pump_array.getD pump 0 : Int) + 1)).toNat :=
    Nat.max_eq_left (by omega)
  rw [hmax]
  rfl

/-- Claim C7, witness: pump 1 of the default Jacuzzi configuration is a
3-state pump (`pump_array[1] = 2`); requesting state 2 from observed state 0
sends exactly 2 identical frames with a 1-second sleep after each. -/
theorem c7_witness :
    ∃ d : Nat,
      d = ((((2 : Int) - (0 : Int)) % ((2 : Int) + 1)).toNat) ∧
      1 ≤ d ∧
      jacuzziChangePump
          { jacuzziInit with connected := true, channel := some 10 } 1 2 =
        .ok (List.flatten (List.replicate d
          [Act.write (jacuzziFrame [10, 0xBF, 0x17, 4]), Act.sleep 1])) := by
  have h := c7_pump_cycle_button_count
    { jacuzziInit with connected := true, channel := some 10 } 1 2 10
    rfl rfl (by decide) (by decide) (by decide) (by decide) (by decide)
    (by decide)
  exact h

/-- Claim C8, counterexample: with no channel assigned, the Jacuzzi command
operation `change_pump` (requesting state 1 for pump 1, observed off) does
not return silently: it raises `TypeError` when it stores `self.channel`
(`None`) into the outgoing byte array, contradicting the claim that every
command-send operation invoked without a channel only logs. -/
theorem c8_counterexample :
    jacuzziChangePump { jacuzziInit with connected := true } 1 1 =
      .error .typeError := by
  rfl

/-- Claim C8 (amended): the transmit primitives behave as claimed — the
Jacuzzi `send_message` writes nothing when disconnected or unassigned, and
the Sundance `send_CCmessage` returns the state (queue included) unchanged —
but the higher-level Jacuzzi command builders such as `change_pump`, which
store `self.channel` into the frame before calling `send_message`, raise
`TypeError` instead of returning silently when no channel is assigned. -/
theorem c8_command_noop_amended
    (s : JacuzziState) (t : SundanceState) (payload : List Nat) (v : CCVal)
    (pump newstate : Nat) :
    (s.connected = false ∨ s.channel = none →
      jacuzziSendMessage s payload = []) ∧
    (t.connected = false ∨ t.channel = none →
      sendCCmessage t v = .ok t) ∧
    (s.channel = none → pump ≤ MAX_PUMPS →
      pump < s.pump_array.length → pump < s.pump_status.length →
      newstate ≤ s.pump_array.getD pump 0 →
      s.pump_status.getD pump 0 ≠ newstate →
      jacuzziChangePump s pump newstate = .error .typeError) := by
  refine ⟨?_, ?_, ?_⟩
  · rintro (hcon | hch)
    · simp [jacuzziSendMessage, hcon]
    · cases hc : s.connected <;> simp [jacuzziSendMessage, hch, hc]
  · rintro (hcon | hch)
    · simp [sendCCmessage, hcon]
    · cases hc : t.connected <;> simp [sendCCmessage, hch, hc]
  · intro hch hpm hpa hps hnew hne
    have hnotgt : ¬ pump > MAX_PUMPS := by omega
    have hnew2 : ¬ newstate > s.pump_array.getD pump 0 := by omega
    simp only [jacuzziChangePump, hnotgt, if_false, byte_ok hpa, byte_ok hps,
      exceptBind_ok_eq, exceptBind_error_eq, hnew2, hne, hch, if_neg,
      ite_false]

/-- Claim C8, witness for the amended theorem. -/
theorem c8_witness :
    (jacuzziInit.connected = false ∨ jacuzziInit.channel = none →
      jacuzziSendMessage jacuzziInit [10, 0xBF, 0x19, 1, 0] = []) ∧
    (sundanceInit.connected = false ∨ sundanceInit.channel = none →
      sendCCmessage sundanceInit (.bytesV btnTempUp) = .ok sundanceInit) ∧
    (jacuzziInit.channel = none → 1 ≤ MAX_PUMPS →
      1 < jacuzziInit.pump_array.length →
      1 < jacuzziInit.pump_status.length →
      1 ≤ jacuzziInit.pump_array.getD 1 0 →
      jacuzziInit.pump_status.getD 1 0 ≠ 1 →
      jacuzziChangePump jacuzziInit 1 1 = .error .typeError) :=
  c8_command_noop_amended jacuzziInit sundanceInit [10, 0xBF, 0x19, 1, 0]
    (.bytesV btnTempUp) 1 1

/-- Claim C10: in the Jacuzzi engine the per-type checksum suppression runs
before dispatch for every recognised message type — arbitration messages
included.  When the stored previous checksum of the incoming type byte
equals the frame's checksum byte, `process_message` re-stores that same
checksum (leaving `prev_chksums` unchanged), changes nothing else, and
writes nothing to the transport. -/
theorem c10_checksum_suppression
    (now : ℚ) (s : JacuzziState) (data : List Nat) (mt : JMsgType)
    (hL : 5 ≤ data.length)
    (hrec : jacuzziMtypeOfByte (data.getD 4 0) = some mt)
    (hchk : lookupA s.prev_chksums (data.getD 4 0) =
      some (data.getD (data.length - 2) 0)) :
    jacuzziProcessMessage now s data = .ok (s, []) := by
  have h2 : (2 : Nat) < data.length := by omega
  have h4 : (4 : Nat) < data.length := by omega
  have hm2 : data.length - 2 < data.length := by omega
  have hfind : jacuzziFindMtype data = some mt := by
    simp only [jacuzziFindMtype, hrec, if_neg (by omega : ¬ data.length < 5)]
  simp only [jacuzziProcessMessage, byte_ok h2, byte_ok h4, byte_ok hm2,
    exceptBind_ok_eq, hfind, hchk, if_pos, ite_true, setA_self hchk]

/-- Claim C10, witness: a `ClearToSend` transmit grant (type byte `0x06`)
addressed to the assigned channel with a matching stored checksum is fully
suppressed: no dequeue, no write, no state change. -/
theorem c10_witness :
    jacuzziProcessMessage 5
      { jacuzziInit with
          channel := some 16
          discoveredChannels := [16]
          queue := [[1, 2, 3]]
          prev_chksums := [(6, 77)] }
      [126, 5, 16, 191, 6, 77, 126] =
    .ok ({ jacuzziInit with
            channel := some 16
            discoveredChannels := [16]
            queue := [[1, 2, 3]]
            prev_chksums := [(6, 77)] }, []) :=
  c10_checksum_suppression 5 _ [126, 5, 16, 191, 6, 77, 126] .clearToSend
    (by decide) (by decide) (by decide)

@[simp] theorem exceptMap_ok {α β : Type} (x : α) (f : α → β) :
    (Except.ok x : Except PyError α).map f = .ok (f x) := rfl

@[simp] theorem exceptMap_error {α β : Type} (e : PyError) (f : α → β) :
    (Except.error e : Except PyError α).map f = .error e := rfl

/-- Success test on a fallible result. -/
def isOkE {α : Type} : Except PyError α → Bool
  | .ok _ => true
  | .error _ => false

theorem byte_ok_inv {l : List Nat} {i v : Nat} (h : byte l i = .ok v) :
    i < l.length ∧ v = l.getD i 0 := by
  unfold byte at h
  split at h
  · exact ⟨by assumption, by injection h; omega⟩
  · exact absurd h (by simp)

theorem byteI_ok_inv {l : List Int} {i : Nat} {v : Int}
    (h : byteI l i = .ok v) : i < l.length ∧ v = l.getD i 0 := by
  unfold byteI at h
  split at h
  · refine ⟨by assumption, ?_⟩
    injection h
    omega
  · exact absurd h (by simp)

theorem pyDictGet_ok_inv {tbl : List (Nat × ℚ)} {k : Nat} {v : ℚ}
    (h : pyDictGet tbl k = .ok v) : tbl.lookup k = some v := by
  unfold pyDictGet at h
  cases hl : tbl.lookup k with
  | none => rw [hl] at h; exact absurd h (by simp)
  | some w => rw [hl] at h; injection h with h; rw [h]

theorem copyInto_ok_inv {dst src p : List Nat}
    (h : copyInto dst src = .ok p) : p = src ++ dst.drop src.length := by
  unfold copyInto at h
  split at h
  · injection h with h
    exact h.symm
  · exact absurd h (by simp)

/-- The value read by `jacuzziReadStatus` from a well-formed frame. -/
def jfieldsOf (data : List Nat) : JFields where
  d5 := data.getD 5 0
  d6 := data.getD 6 0
  d7 := data.getD 7 0
  d8 := data.getD 8 0
  d9 := data.getD 9 0
  d10 := data.getD 10 0
  d11 := data.getD 11 0
  d12 := data.getD 12 0
  d13 := data.getD 13 0
  d14 := data.getD 14 0
  d15 := data.getD 15 0
  d16 := data.getD 16 0
  d17 := data.getD 17 0
  d18 := data.getD 18 0
  d19 := data.getD 19 0
  d20 := data.getD 20 0
  d21 := data.getD 21 0
  d22 := data.getD 22 0
  d23 := data.getD 23 0
  d24 := data.getD 24 0
  d25 := data.getD 25 0
  d26 := data.getD 26 0
  d27 := data.getD 27 0
  d1 := data.getD 1 0
  outerPair := if 30 ≤ data.getD 1 0 then
    some (data.getD 28 0, data.getD 29 0) else none
  innerPair := if 32 ≤ data.getD 1 0 then
    some (data.getD 30 0, data.getD 31 0) else none
  wifiByte := if 33 ≤ data.getD 1 0 then some (data.getD 32 0) else none
  extraBytes := if 37 ≤ data.getD 1 0 then
    some (data.getD 33 0, data.getD 34 0, data.getD 35 0, data.getD 36 0)
    else none

set_option maxHeartbeats 2000000 in
theorem jacuzziReadStatus_eq {data : List Nat}
    (h1 : data.length = data.getD 1 0 + 2) (h2 : 26 ≤ data.getD 1 0) :
    jacuzziReadStatus data = .ok (jfieldsOf data) := by
  by_cases h30 : 30 ≤ data.getD 1 0 <;>
    by_cases h32 : 32 ≤ data.getD 1 0 <;>
      by_cases h33 : 33 ≤ data.getD 1 0 <;>
        by_cases h37 : 37 ≤ data.getD 1 0 <;>
          simp (disch := omega) only [jacuzziReadStatus, jfieldsOf, byte_ok,
            exceptBind_ok_eq, exceptPure_ok, h30, h32, h33, h37, if_true,
            if_false, iff_true, iff_false, eq_self_iff_true,
            Except.ok.injEq, JFields.mk.injEq, and_self, and_true, true_and]

theorem jacuzziParse_eq {now : ℚ} {data : List Nat} {s : JacuzziState}
    (h1 : data.length = data.getD 1 0 + 2) (h2 : 26 ≤ data.getD 1 0) :
    jacuzziParseStatusUpdate now data s =
      .ok (jacuzziApplyStatus now (jfieldsOf data) s) := by
  rw [jacuzziParseStatusUpdate, jacuzziReadStatus_eq h1 h2, exceptMap_ok]

/-- A status frame whose declared length byte is only 10: the decoder reads
byte 12 without any length check and crashes. -/
def shortStatusFrame : List Nat :=
  [126, 10, 255, 175, 22, 0, 0, 0, 0, 0, 99, 126]

/-- A well-formed Sundance `C4` status frame whose decrypted set-temperature
byte (1) is missing from `set_temp_convert`. -/
def badC4Frame : List Nat :=
  [126, 37, 255, 175, 196] ++ List.replicate 30 0 ++ [90, 126]

/-- Claim C9, counterexample: decoding is not total.  The Jacuzzi status
decoder indexes out of bounds (`IndexError`) on a checksum-framed status
message with declared length 10, because bytes 5..27 are read without any
length check; the Sundance status decoder raises `KeyError` on a decrypted
set-temperature byte outside its lookup table. -/
theorem c9_counterexample :
    jacuzziParseStatusUpdate 0 shortStatusFrame jacuzziInit =
      .error .indexError ∧
    sundanceParseC4 0 sundanceInit badC4Frame = .error .keyError := by
  exact ⟨rfl, rfl⟩

/-- Claim C9 (amended): the length-gated optional fields (outer/inner filter
hours, WiFi state, extra status bytes) are indeed read only after checking
the frame's declared length byte, and the Jacuzzi status decoder is total on
length-consistent frames whose declared length is at least 26 (so the
unconditional fixed region through byte 27 is present); for smaller declared
lengths it indexes out of bounds, and the Sundance decoder can additionally
raise on raw temperature values outside its lookup tables (see the
counterexample). -/
theorem c9_decoder_totality_amended
    (now : ℚ) (data : List Nat) (s : JacuzziState)
    (h1 : data.length = data.getD 1 0 + 2) (h2 : 26 ≤ data.getD 1 0) :
    isOkE (jacuzziParseStatusUpdate now data s) = true ∧
    (∀ s', jacuzziParseStatusUpdate now data s = .ok s' →
      (data.getD 1 0 < 30 → s'.outerFilterTime = s.outerFilterTime) ∧
      (data.getD 1 0 < 32 → s'.innerFilterTime = s.innerFilterTime) ∧
      (data.getD 1 0 < 33 → s'.spaWifiState = s.spaWifiState) ∧
      (data.getD 1 0 < 37 → s'.statusByte33 = s.statusByte33)) := by
  constructor
  · rw [jacuzziParse_eq h1 h2]
    rfl
  · intro s' h
    rw [jacuzziParse_eq h1 h2] at h
    injection h with h
    subst h
    refine ⟨?_, ?_, ?_, ?_⟩ <;> intro hlt <;>
      simp only [jacuzziApplyStatus, jfieldsOf] <;>
      rw [if_neg (by omega)]

/-- A length-consistent status frame with declared length 26: no optional
group is present. -/
def statusFrame26 : List Nat :=
  [126, 26, 255, 175, 22] ++ List.replicate 21 0 ++ [99, 126]

/-- Claim C9, witness for the amended theorem. -/
theorem c9_witness :
    isOkE (jacuzziParseStatusUpdate 0 statusFrame26 jacuzziInit) = true ∧
    (∀ s', jacuzziParseStatusUpdate 0 statusFrame26 jacuzziInit = .ok s' →
      (statusFrame26.getD 1 0 < 30 →
        s'.outerFilterTime = jacuzziInit.outerFilterTime) ∧
      (statusFrame26.getD 1 0 < 32 →
        s'.innerFilterTime = jacuzziInit.innerFilterTime) ∧
      (statusFrame26.getD 1 0 < 33 →
        s'.spaWifiState = jacuzziInit.spaWifiState) ∧
      (statusFrame26.getD 1 0 < 37 →
        s'.statusByte33 = jacuzziInit.statusByte33)) :=
  c9_decoder_totality_amended 0 statusFrame26 jacuzziInit (by decide)
    (by decide)

/-- The fields of the Sundance session preserved by the command-retry
reconciliation: `lastupd`, the prior payloads, the decoded temperatures, and
the transmit queue up to appended retries. -/
def sunPres (s s' : SundanceState) : Prop :=
  s'.lastupd = s.lastupd ∧ s'.prior_status = s.prior_status ∧
  s'.settemp = s.settemp ∧ s'.curtemp = s.curtemp ∧
  ∃ t, s'.queue = s.queue ++ t

theorem sunPres_refl (s : SundanceState) : sunPres s s :=
  ⟨rfl, rfl, rfl, rfl, [], by simp⟩

theorem sunPres_trans {a b c : SundanceState} (h1 : sunPres a b)
    (h2 : sunPres b c) : sunPres a c := by
  obtain ⟨l1, p1, s1, c1, t1, q1⟩ := h1
  obtain ⟨l2, p2, s2, c2, t2, q2⟩ := h2
  exact ⟨l2.trans l1, p2.trans p1, s2.trans s1, c2.trans c1, t1 ++ t2,
    by rw [q2, q1, List.append_assoc]⟩

theorem sendCC_pres {s s' : SundanceState} {v : CCVal}
    (h : sendCCmessage s v = .ok s') : sunPres s s' := by
  unfold sendCCmessage at h
  by_cases hc : s.connected = true
  · rw [if_pos hc] at h
    cases hch : s.channel with
    | none =>
        rw [hch] at h
        injection h with h
        subst h
        exact sunPres_refl s
    | some c =>
        rw [hch] at h
        cases v with
        | bytesV b =>
            injection h with h
            subst h
            exact ⟨rfl, rfl, rfl, rfl, [b], rfl⟩
        | intV n => exact absurd h (by simp)
  · rw [if_neg hc] at h
    injection h with h
    subst h
    exact sunPres_refl s

theorem reconTemp_pres {s : SundanceState} {p : SundanceState × Bool}
    (h : reconTemp s = .ok p) : sunPres s p.1 := by
  unfold reconTemp at h
  split at h
  · obtain ⟨s', hs', h⟩ := exceptBind_ok h
    have hp : sunPres s s' := by
      split at hs'
      · exact sendCC_pres hs'
      · exact sendCC_pres hs'
    injection h with h
    subst h
    exact sunPres_trans hp ⟨rfl, rfl, rfl, rfl, [], by simp⟩
  · split at h
    · injection h with h
      subst h
      exact ⟨rfl, rfl, rfl, rfl, [], by simp⟩
    · injection h with h
      subst h
      exact sunPres_refl s

theorem reconPumpStep_pres {p p' : SundanceState × Bool} {i : Nat}
    (h : reconPumpStep p i = .ok p') : sunPres p.1 p'.1 := by
  unfold reconPumpStep at h
  obtain ⟨ps, hps, h⟩ := exceptBind_ok h
  obtain ⟨tg, htg, h⟩ := exceptBind_ok h
  split at h
  · split at h
    · obtain ⟨s', hs', h⟩ := exceptBind_ok h
      have hp := sendCC_pres hs'
      injection h with h
      subst h
      exact sunPres_trans hp ⟨rfl, rfl, rfl, rfl, [], by simp⟩
    · injection h with h
      subst h
      exact sunPres_refl _
  · split at h
    · injection h with h
      subst h
      exact ⟨rfl, rfl, rfl, rfl, [], by simp⟩
    · injection h with h
      subst h
      exact sunPres_refl _

theorem foldPump_pres (l : List Nat) :
    ∀ (p p' : SundanceState × Bool),
      List.foldlM reconPumpStep p l = .ok p' → sunPres p.1 p'.1 := by
  induction l with
  | nil =>
      intro p p' h
      injection h with h
      subst h
      exact sunPres_refl _
  | cons a t ih =>
      intro p p' h
      rw [List.foldlM_cons] at h
      obtain ⟨q, hq, h⟩ := exceptBind_ok h
      exact sunPres_trans (reconPumpStep_pres hq) (ih q p' h)

theorem sundanceRecon_pres {s s' : SundanceState}
    (h : sundanceRecon s = .ok s') : sunPres s s' := by
  unfold sundanceRecon at h
  obtain ⟨p1, hp1, h⟩ := exceptBind_ok h
  obtain ⟨p2, hp2, h⟩ := exceptBind_ok h
  have pres := sunPres_trans (reconTemp_pres hp1) (foldPump_pres _ _ _ hp2)
  injection h with h
  subst h
  split
  · exact sunPres_trans pres ⟨rfl, rfl, rfl, rfl, [], by simp⟩
  · exact pres

theorem finalize_false {now : ℚ} {dec : List Nat} {s : SundanceState} :
    sundanceFinalizeC4 now false dec s = .ok s := by
  simp [sundanceFinalizeC4]

theorem finalize_true_inv {now : ℚ} {dec : List Nat} {s s' : SundanceState}
    (h : sundanceFinalizeC4 now true dec s = .ok s') :
    s'.lastupd = now ∧ s'.settemp = s.settemp ∧ s'.curtemp = s.curtemp ∧
    s'.queue = s.queue := by
  unfold sundanceFinalizeC4 at h
  rw [if_neg (by simp)] at h
  cases hp : s.prior_status with
  | none =>
      rw [hp] at h
      obtain ⟨p', hp', h⟩ := exceptBind_ok h
      injection h with h
      subst h
      exact ⟨rfl, rfl, rfl, rfl⟩
  | some p =>
      rw [hp] at h
      obtain ⟨p', hp', h⟩ := exceptBind_ok h
      injection h with h
      subst h
      exact ⟨rfl, rfl, rfl, rfl⟩

theorem sundanceReadC4_inv {dec : List Nat} {f : C4Fields}
    (h : sundanceReadC4 dec = .ok f) :
    f.d4 = dec.getD 4 0 ∧ f.d3 = dec.getD 3 0 ∧
    set_temp_convert.lookup f.d4 = some f.settempQ ∧
    temp_convert.lookup f.d3 = some f.curtempQ := by
  unfold sundanceReadC4 at h
  obtain ⟨d0, h0, h⟩ := exceptBind_ok h
  obtain ⟨d11, h11, h⟩ := exceptBind_ok h
  obtain ⟨d1, h1, h⟩ := exceptBind_ok h
  obtain ⟨d4, h4, h⟩ := exceptBind_ok h
  obtain ⟨st, hst, h⟩ := exceptBind_ok h
  obtain ⟨d3, h3, h⟩ := exceptBind_ok h
  obtain ⟨d9, h9, h⟩ := exceptBind_ok h
  obtain ⟨d14, h14, h⟩ := exceptBind_ok h
  obtain ⟨ct, hct, h⟩ := exceptBind_ok h
  obtain ⟨d10, h10, h⟩ := exceptBind_ok h
  obtain ⟨d13, h13, h⟩ := exceptBind_ok h
  obtain ⟨d6, h6, h⟩ := exceptBind_ok h
  obtain ⟨d7, h7, h⟩ := exceptBind_ok h
  obtain ⟨d2, h2, h⟩ := exceptBind_ok h
  injection h with h
  subst h
  exact ⟨(byte_ok_inv h4).2, (byte_ok_inv h3).2, pyDictGet_ok_inv hst,
    pyDictGet_ok_inv hct⟩

theorem sundanceNewData_inv {dec : List Nat} {t : SundanceState}
    {hsp : Bool × SundanceState} (h : sundanceNewData dec t = .ok hsp) :
    hsp.2.settemp = t.settemp ∧ hsp.2.curtemp = t.curtemp ∧
    hsp.2.queue = t.queue ∧ hsp.2.lastupd = t.lastupd := by
  unfold sundanceNewData at h
  cases hp : t.prior_status with
  | none =>
      rw [hp] at h
      injection h with h
      subst h
      exact ⟨rfl, rfl, rfl, rfl⟩
  | some p =>
      rw [hp] at h
      obtain ⟨hn, hhn, h⟩ := exceptBind_ok h
      injection h with h
      subst h
      exact ⟨rfl, rfl, rfl, rfl⟩

theorem sundanceParseC4_settemp {now : ℚ} {t t' : SundanceState}
    {raw : List Nat} {q : ℚ}
    (hq : set_temp_convert.lookup
      ((xormsg ((raw.drop 5).take (raw.length - 7))).getD 4 0) = some q)
    (h : sundanceParseC4 now t raw = .ok t') : t'.settemp = q := by
  simp only [sundanceParseC4] at h
  obtain ⟨hs, hns, h⟩ := exceptBind_ok h
  obtain ⟨f, hf, h⟩ := exceptBind_ok h
  obtain ⟨s3, hr, h⟩ := exceptBind_ok h
  obtain ⟨hd4, hd3, hst, hct⟩ := sundanceReadC4_inv hf
  have hfq : f.settempQ = q := by
    rw [hd4] at hst
    rw [hst] at hq
    injection hq
  have happ : (sundanceApplyC4 f hs.2).settemp = f.settempQ := rfl
  have hs3 : s3.settemp = f.settempQ := by
    obtain ⟨_, _, hsp, _, _⟩ := sundanceRecon_pres hr
    rw [hsp, happ]
  cases hb : hs.1 with
  | false =>
      rw [hb, finalize_false] at h
      injection h with h
      subst h
      rw [hs3, hfq]
  | true =>
      rw [hb] at h
      obtain ⟨_, hset, _, _⟩ := finalize_true_inv h
      rw [hset, hs3, hfq]

/-- A well-formed Jacuzzi status frame (declared length 38, Celsius session)
whose raw target-temperature byte 14 is the sentinel 255. -/
def c4jFrame : List Nat :=
  [126, 38, 255, 175, 22, 12, 30, 33, 5, 25, 2, 0, 100, 250, 255, 0, 0, 0, 1]
    ++ List.replicate 19 0 ++ [77, 126]

/-- A well-formed Sundance `C4` frame whose decrypted bytes are 47 at the
current-temperature offset 3 and 183 at the set-temperature offset 4. -/
def s4Frame : List Nat :=
  [126, 37, 255, 175, 196, 1, 0, 1, 0, 1, 0, 46, 0, 182, 0]
    ++ List.replicate 20 0 ++ [90, 126]

/-- Claim C4, counterexample: a raw target-temperature byte 255 does decode
to a number.  Under the Celsius scale the Jacuzzi decoder stores
`settemp = 255 / 2 = 127.5` (only the current temperature has the 255
guard), and the Sundance decoder does not divide raw bytes at all: its
decrypted set-temperature byte 183 maps through `set_temp_convert` to 38.0,
not 183/2. -/
theorem c4_counterexample :
    (jacuzziParseStatusUpdate 0 c4jFrame jacuzziInit).map
        JacuzziState.settemp = .ok (255 / 2) ∧
    (jacuzziParseStatusUpdate 0 c4jFrame jacuzziInit).map
        JacuzziState.curtemp = .ok (some (100 / 2)) ∧
    ((255 : ℚ) / 2) = 127.5 ∧
    (sundanceParseC4 0 sundanceInit s4Frame).map SundanceState.settemp =
      .ok 38 ∧
    ((183 : ℚ) / 2) ≠ 38 := by
  refine ⟨rfl, rfl, by norm_num, rfl, by norm_num⟩

/-- Claim C4 (amended): under the Jacuzzi dialect a raw temperature byte
decodes to raw/2 under Celsius and to the raw value under Fahrenheit; the
current temperature decodes raw 255 to absence, but the target temperature
has no such sentinel (255 becomes 127.5 under Celsius).  The Sundance
dialect instead maps the decrypted set-temperature byte through the
`set_temp_convert` lookup table. -/
theorem c4_temperature_decode_amended
    (now : ℚ) (data : List Nat) (s : JacuzziState)
    (h1 : data.length = data.getD 1 0 + 2) (h2 : 26 ≤ data.getD 1 0) :
    (∀ s', jacuzziParseStatusUpdate now data s = .ok s' →
      s'.curtemp = (if data.getD 12 0 = 255 then none
        else some ((data.getD 12 0 : ℚ) /
          (if s.tempscale = TSCALE_C then 2 else 1))) ∧
      s'.settemp = (data.getD 14 0 : ℚ) /
          (if s.tempscale = TSCALE_C then 2 else 1)) ∧
    (∀ (t t' : SundanceState) (raw : List Nat) (q : ℚ),
      set_temp_convert.lookup
        ((xormsg ((raw.drop 5).take (raw.length - 7))).getD 4 0) = some q →
      sundanceParseC4 now t raw = .ok t' →
      t'.settemp = q) := by
  constructor
  · intro s' h
    rw [jacuzziParse_eq h1 h2] at h
    injection h with h
    subst h
    exact ⟨rfl, rfl⟩
  · intro t t' raw q hq h
    exact sundanceParseC4_settemp hq h

/-- The witness frame for C4: raw current temperature 100 and raw target
temperature 160 under a Celsius session decode to 50.0 and 80.0. -/
def c4wFrame : List Nat :=
  [126, 38, 255, 175, 22, 12, 30, 33, 5, 25, 2, 0, 100, 250, 160, 0, 0, 0, 1]
    ++ List.replicate 19 0 ++ [77, 126]

/-- Claim C4, witness for the amended theorem: raw byte 160 under Celsius
yields 80.0, raw byte 100 yields 50.0, and the Sundance table sends
decrypted byte 183 to 38.0. -/
theorem c4_witness :
    (jacuzziParseStatusUpdate 0 c4wFrame jacuzziInit).map
        (fun s => (s.curtemp, s.settemp)) = .ok (some 50, 80) ∧
    (sundanceParseC4 0 sundanceInit s4Frame).map SundanceState.settemp =
      .ok 38 := by
  have h := c4_temperature_decode_amended 0 c4wFrame jacuzziInit (by decide)
    (by decide)
  constructor
  · obtain ⟨s', hs⟩ : ∃ s',
        jacuzziParseStatusUpdate 0 c4wFrame jacuzziInit = .ok s' := ⟨_, rfl⟩
    obtain ⟨hcur, hset⟩ := h.1 s' hs
    rw [hs, exceptMap_ok, hcur, hset]
    norm_num [c4wFrame, jacuzziInit, TSCALE_C]
  · obtain ⟨t', ht⟩ : ∃ t',
        sundanceParseC4 0 sundanceInit s4Frame = .ok t' := ⟨_, rfl⟩
    have hst := h.2 sundanceInit t' s4Frame 38 (by decide) ht
    rw [ht, exceptMap_ok, hst]

/-- The state after `has_changed` has stored a frame's checksum byte under
its type byte. -/
def jacuzziChk (s : JacuzziState) (data : List Nat) : JacuzziState :=
  { s with prev_chksums := setA s.prev_chksums (data.getD 4 0) (data.getD (data.length - 2) 0) }

theorem jacuzziProcess_suppressed (now : ℚ) (s : JacuzziState)
    (data : List Nat) (mt : JMsgType) (hL : 5 ≤ data.length)
    (hrec : jacuzziMtypeOfByte (data.getD 4 0) = some mt)
    (hchk : lookupA s.prev_chksums (data.getD 4 0) =
      some (data.getD (data.length - 2) 0)) :
    jacuzziProcessMessage now s data = .ok (s, []) := by
  have h2 : (2 : Nat) < data.length := by omega
  have h4 : (4 : Nat) < data.length := by omega
  have hm2 : data.length - 2 < data.length := by omega
  have hfind : jacuzziFindMtype data = some mt := by
    simp only [jacuzziFindMtype, hrec, if_neg (by omega : ¬ data.length < 5)]
  simp only [jacuzziProcessMessage, byte_ok h2, byte_ok h4, byte_ok hm2,
    exceptBind_ok_eq, hfind, hchk, if_pos, ite_true, setA_self hchk]

/-- Claim C2: change-detection idempotence.  In the Jacuzzi engine a status
frame whose checksum byte matches the stored previous checksum for type
`0x16` leaves the session (including `lastupd`) unchanged; a frame with a
fresh checksum stamps `lastupd` and immediately re-processing the very same
frame leaves the resulting session unchanged.  In the Sundance engine,
decoding a payload identical to the stored prior decrypted payload leaves
`lastupd` unchanged, while a first payload (or one differing from the prior)
stamps it. -/
theorem c2_change_detection_idempotence
    (now now2 : ℚ) (s : JacuzziState) (t : SundanceState)
    (data raw : List Nat)
    (hty : data.getD 4 0 = 0x16)
    (h1 : data.length = data.getD 1 0 + 2)
    (h2 : 26 ≤ data.getD 1 0) :
    (lookupA s.prev_chksums 0x16 = some (data.getD (data.length - 2) 0) →
      jacuzziProcessMessage now s data = .ok (s, [])) ∧
    (lookupA s.prev_chksums 0x16 ≠ some (data.getD (data.length - 2) 0) →
      ∃ s', jacuzziProcessMessage now s data = .ok (s', []) ∧
        s'.lastupd = now ∧
        jacuzziProcessMessage now2 s' data = .ok (s', [])) ∧
    (t.prior_status = some (xormsg ((raw.drop 5).take (raw.length - 7))) →
      ∀ t', sundanceParseC4 now t raw = .ok t' → t'.lastupd = t.lastupd) ∧
    ((t.prior_status = none ∨
      ∃ p, t.prior_status = some p ∧
        anyDiff (xormsg ((raw.drop 5).take (raw.length - 7))) p = .ok true) →
      ∀ t', sundanceParseC4 now t raw = .ok t' → t'.lastupd = now) := by
  have hL : 5 ≤ data.length := by omega
  have hb2 : (2 : Nat) < data.length := by omega
  have hb4 : (4 : Nat) < data.length := by omega
  have hm2 : data.length - 2 < data.length := by omega
  have hrec : jacuzziMtypeOfByte (data.getD 4 0) = some .statusUpdate := by
    rw [hty]
    rfl
  have hfind : jacuzziFindMtype data = some .statusUpdate := by
    simp only [jacuzziFindMtype, hrec, if_neg (by omega : ¬ data.length < 5)]
  refine ⟨?_, ?_, ?_, ?_⟩
  · intro hchk
    exact jacuzziProcess_suppressed now s data .statusUpdate hL hrec
      (by rw [hty]; exact hchk)
  · intro hne
    have hne' : ¬ (lookupA s.prev_chksums (data.getD 4 0) =
        some (data.getD (data.length - 2) 0)) := by
      rw [hty]
      exact hne
    refine ⟨jacuzziApplyStatus now (jfieldsOf data) (jacuzziChk s data),
      ?_, rfl, ?_⟩
    · simp only [jacuzziProcessMessage, byte_ok hb2, byte_ok hb4,
        byte_ok hm2, exceptBind_ok_eq, hfind, if_neg hne', jacuzziChk,
        jacuzziParse_eq h1 h2]
    · refine jacuzziProcess_suppressed now2 _ data .statusUpdate hL hrec ?_
      have hprev : (jacuzziApplyStatus now (jfieldsOf data)
          (jacuzziChk s data)).prev_chksums =
          setA s.prev_chksums (data.getD 4 0)
            (data.getD (data.length - 2) 0) := rfl
      rw [hprev, lookupA_setA]
  · intro hprior t' h
    simp only [sundanceParseC4] at h
    have hnd : sundanceNewData
        (xormsg ((raw.drop 5).take (raw.length - 7))) t =
        .ok (false, t) := by
      unfold sundanceNewData
      rw [hprior]
      simp only [anyDiff_self, exceptBind_ok_eq]
    rw [hnd] at h
    simp only [exceptBind_ok_eq] at h
    obtain ⟨f, hf, h⟩ := exceptBind_ok h
    obtain ⟨s3, hr, h⟩ := exceptBind_ok h
    rw [finalize_false] at h
    injection h with h
    subst h
    obtain ⟨hlast, _, _, _, _⟩ := sundanceRecon_pres hr
    exact hlast
  · intro hnew t' h
    simp only [sundanceParseC4] at h
    obtain ⟨hs, hns, h⟩ := exceptBind_ok h
    have hb : hs.1 = true := by
      rcases hnew with hp | ⟨p, hp, hd⟩
      · unfold sundanceNewData at hns
        rw [hp] at hns
        injection hns with hns
        rw [← hns]
      · unfold sundanceNewData at hns
        rw [hp] at hns
        simp only [hd, exceptBind_ok_eq] at hns
        injection hns with hns
        rw [← hns]
    obtain ⟨f, hf, h⟩ := exceptBind_ok h
    obtain ⟨s3, hr, h⟩ := exceptBind_ok h
    rw [hb] at h
    exact (finalize_true_inv h).1

/-- Claim C2, witness: a fresh status frame stamps `lastupd = 3`,
re-processing the identical frame leaves the state untouched, and a first
Sundance payload stamps `lastupd = 7`. -/
theorem c2_witness :
    (∃ s', jacuzziProcessMessage 3 jacuzziInit statusFrame26 = .ok (s', []) ∧
      s'.lastupd = 3 ∧
      jacuzziProcessMessage 9 s' statusFrame26 = .ok (s', [])) ∧
    (sundanceParseC4 3 sundanceInit s4Frame).map SundanceState.lastupd =
      .ok 3 := by
  have h := c2_change_detection_idempotence 3 9 jacuzziInit sundanceInit
    statusFrame26 s4Frame (by decide) (by decide) (by decide)
  refine ⟨h.2.1 (by decide), ?_⟩
  obtain ⟨t', ht⟩ : ∃ t',
      sundanceParseC4 3 sundanceInit s4Frame = .ok t' := ⟨_, rfl⟩
  rw [ht, exceptMap_ok, h.2.2.2 (Or.inl rfl) t' ht]

/-- The Jacuzzi session whose self-assignment crashes: probe counter one
below threshold, channels 10 and 16 discovered, channel 16 active. -/
def jacC6state : JacuzziState :=
  { jacuzziInit with
      activeChannels := [16]
      discoveredChannels := [10, 16]
      detectChannelState := 4 }

/-- A `CC_REQ` button-poll broadcast from the already-active channel 16. -/
def c6frame : List Nat := [126, 6, 16, 191, 23, 0, 51, 126]

/-- Claim C6 (code_bug): in the Sundance engine a `CC_REQ` from an
already-known active channel increments the probe counter while it is below
the threshold, and on reaching the threshold the engine adopts the
numerically lowest discovered channel outside the active set, with no
handshake frame written.  The Jacuzzi engine reaches the same decision point
and then calls `self.set_channel(chan)` with a plain `int`, whose body
evaluates `chan[5]` and raises `TypeError`, so it never assigns the
channel. -/
theorem c6_opportunistic_self_assignment
    (now : ℚ) (s : SundanceState) (data : List Nat) (m : Nat)
    (hL : 6 ≤ data.length)
    (ht : data.getD 4 0 = CC_REQ)
    (ha : data.getD 2 0 ∈ s.activeChannels) :
    (s.detectChannelState + 1 < DETECT_CHANNEL_STATE_CHANNEL_NOT_FOUND →
      sundanceListenStep now s data =
        .ok ({ s with detectChannelState := s.detectChannelState + 1 }, [])) ∧
    (s.detectChannelState = 4 →
      (List.insertionSort (fun a b => a ≤ b) s.discoveredChannels).find?
          (fun c => decide (c ∉ s.activeChannels)) = some m →
      sundanceListenStep now s data =
        .ok ({ s with
                detectChannelState := s.detectChannelState + 1
                discoveredChannels :=
                  List.insertionSort (fun a b => a ≤ b) s.discoveredChannels
                channel := some m
                NTS := ntsFrame m }, []) ∧
      m ∈ s.discoveredChannels ∧ m ∉ s.activeChannels ∧
      ∀ x ∈ s.discoveredChannels, x ∉ s.activeChannels → m ≤ x) ∧
    jacuzziProcessMessage 0 jacC6state c6frame = .error .typeError := by
  have hb2 : (2 : Nat) < data.length := by omega
  have hb3 : (3 : Nat) < data.length := by omega
  have hb4 : (4 : Nat) < data.length := by omega
  have hb5 : (5 : Nat) < data.length := by omega
  have ha2 : (data[2]?).getD 0 ∈ s.activeChannels := by simpa using ha
  refine ⟨?_, ?_, rfl⟩
  · intro hlt
    have hdcs : s.detectChannelState < DETECT_CHANNEL_STATE_CHANNEL_NOT_FOUND := by
      unfold DETECT_CHANNEL_STATE_CHANNEL_NOT_FOUND at hlt ⊢
      omega
    have hne5 : ¬ (s.detectChannelState + 1 =
        DETECT_CHANNEL_STATE_CHANNEL_NOT_FOUND) := by
      unfold DETECT_CHANNEL_STATE_CHANNEL_NOT_FOUND at hlt ⊢
      omega
    simp only [sundanceListenStep, byte_ok hb2, byte_ok hb3, byte_ok hb4,
      byte_ok hb5, exceptBind_ok_eq, ht]
    simp [STATUS_UPDATE, LIGHTS_UPDATE, CLIENT_CLEAR_TO_SEND,
      CHANNEL_ASSIGNMENT_RESPONCE, EXISTING_CLIENT_REQ, CLEAR_TO_SEND,
      CC_REQ, ha2, hdcs, hne5]
  · intro h4 hfind
    have hdcs : s.detectChannelState < DETECT_CHANNEL_STATE_CHANNEL_NOT_FOUND := by
      unfold DETECT_CHANNEL_STATE_CHANNEL_NOT_FOUND
      omega
    have heq5 : s.detectChannelState + 1 =
        DETECT_CHANNEL_STATE_CHANNEL_NOT_FOUND := by
      unfold DETECT_CHANNEL_STATE_CHANNEL_NOT_FOUND
      omega
    have hsorted := List.sorted_insertionSort (fun a b => a ≤ b)
      s.discoveredChannels
    obtain ⟨hmem, hpm, hmin⟩ := find?_sorted_min hsorted hfind
    have hperm := List.perm_insertionSort (fun a b => a ≤ b)
      s.discoveredChannels
    have hfindb : (List.insertionSort (fun a b => a ≤ b)
        s.discoveredChannels).find?
        (fun c => !decide (c ∈ s.activeChannels)) = some m := by
      simpa using hfind
    refine ⟨?_, hperm.mem_iff.mp hmem, of_decide_eq_true hpm, ?_⟩
    · simp only [sundanceListenStep, byte_ok hb2, byte_ok hb3, byte_ok hb4,
        byte_ok hb5, exceptBind_ok_eq, ht]
      simp [STATUS_UPDATE, LIGHTS_UPDATE, CLIENT_CLEAR_TO_SEND,
        CHANNEL_ASSIGNMENT_RESPONCE, EXISTING_CLIENT_REQ, CLEAR_TO_SEND,
        CC_REQ, ha2, hdcs, heq5, hfindb]
    · intro x hx hnx
      exact hmin x (hperm.mem_iff.mpr hx) (decide_eq_true hnx)

/-- The Sundance session used to witness the opportunistic assignment:
channels 16 and 10 discovered (in discovery order), 16 active, counter one
below threshold. -/
def sunC6state : SundanceState :=
  { sundanceInit with
      activeChannels := [16]
      discoveredChannels := [16, 10]
      detectChannelState := 4 }

/-- Claim C6, witness: the `CC_REQ` frame from active channel 16 pushes the
counter to the threshold and the engine self-assigns channel 10, the lowest
discovered channel not in the active set. -/
theorem c6_witness :
    sundanceListenStep 0 sunC6state c6frame =
      .ok ({ sunC6state with
              detectChannelState := sunC6state.detectChannelState + 1
              discoveredChannels :=
                List.insertionSort (fun a b => a ≤ b)
                  sunC6state.discoveredChannels
              channel := some 10
              NTS := ntsFrame 10 }, []) ∧
    10 ∈ sunC6state.discoveredChannels ∧ 10 ∉ sunC6state.activeChannels := by
  have h := (c6_opportunistic_self_assignment 0 sunC6state c6frame 10
    (by decide) (by decide) (by decide)).2.1 rfl (by decide)
  exact ⟨h.1, h.2.1, h.2.2.1⟩

theorem sundanceParseC4_queueExt {now : ℚ} {s s' : SundanceState}
    {raw : List Nat} (h : sundanceParseC4 now s raw = .ok s') :
    ∃ t, s'.queue = s.queue ++ t := by
  simp only [sundanceParseC4] at h
  obtain ⟨hs, hns, h⟩ := exceptBind_ok h
  obtain ⟨f, hf, h⟩ := exceptBind_ok h
  obtain ⟨s3, hr, h⟩ := exceptBind_ok h
  have hq1 : hs.2.queue = s.queue := (sundanceNewData_inv hns).2.2.1
  obtain ⟨_, _, _, _, t, hq2⟩ := sundanceRecon_pres hr
  have happ : (sundanceApplyC4 f hs.2).queue = hs.2.queue := rfl
  cases hb : hs.1 with
  | false =>
      rw [hb, finalize_false] at h
      injection h with h
      subst h
      exact ⟨t, by rw [hq2, happ, hq1]⟩
  | true =>
      rw [hb] at h
      have hfq := (finalize_true_inv h).2.2.2
      exact ⟨t, by rw [hfq, hq2, happ, hq1]⟩

theorem sundanceParseCA_queue {s s' : SundanceState} {raw : List Nat}
    (h : sundanceParseCA s raw = .ok s') : s'.queue = s.queue := by
  simp only [sundanceParseCA] at h
  obtain ⟨f, hf, h⟩ := exceptBind_ok h
  cases hp : s.CAprior_status with
  | some p =>
      rw [hp] at h
      simp only [exceptBind_ok_eq] at h
      obtain ⟨hn, hhn, h⟩ := exceptBind_ok h
      split at h
      · obtain ⟨p', hp', h⟩ := exceptBind_ok h
        injection h with h
        subst h
        rfl
      · injection h with h
        subst h
        rfl
  | none =>
      rw [hp] at h
      simp only [exceptBind_ok_eq] at h
      obtain ⟨p', hp', h⟩ := exceptBind_ok h
      injection h with h
      subst h
      rfl

/-- The Sundance session of the C5 counterexample: assigned channel 7 (not
yet in the discovered set) and one queued frame. -/
def c5state : SundanceState :=
  { sundanceInit with
      connected := true
      channel := some 7
      queue := [[1, 2, 3]] }

/-- A `ClearToSend` transmit grant from channel 7. -/
def ctsFrame7 : List Nat := [126, 5, 7, 191, 6, 40, 126]

/-- Claim C5, counterexample: a `ClearToSend` grant whose sender equals the
assigned channel arrives while the queue is non-empty, yet nothing is popped
or written — the first grant from a channel not yet in the discovered set
only records the channel. -/
theorem c5_counterexample :
    c5state.channel = some (ctsFrame7.getD 2 0) ∧
    c5state.queue = [[1, 2, 3]] ∧
    sundanceListenStep 0 c5state ctsFrame7 =
      .ok ({ c5state with discoveredChannels := [7] }, []) := by
  exact ⟨rfl, rfl, rfl⟩

/-- Claim C5 (amended): queued frames leave the session only while an
own-channel `ClearToSend` grant is processed, at most one frame per grant;
but a grant pops-and-sends only when the granting channel is already in the
discovered set — the first grant from a newly seen channel (our own
included) is merely recorded, with the queue untouched.  With the sender
already discovered and equal to the assigned channel, a non-empty queue pops
exactly one frame and an empty queue writes nothing; for every other
message, the queue is only ever extended, never dequeued.  (In the Jacuzzi
dialect the same grant is additionally dropped by the per-type checksum
gate, see the C10 theorem.) -/
theorem c5_transmit_slot_amended (now : ℚ) :
    (∀ (s : SundanceState) (data m : List Nat) (rest : List (List Nat)),
      5 ≤ data.length → data.getD 4 0 = CLEAR_TO_SEND →
      data.getD 2 0 ∈ s.discoveredChannels →
      s.channel = some (data.getD 2 0) →
      s.queue = m :: rest →
      sundanceListenStep now s data =
        .ok ({ s with queue := rest }, [.write m])) ∧
    (∀ (s : SundanceState) (data : List Nat),
      5 ≤ data.length → data.getD 4 0 = CLEAR_TO_SEND →
      data.getD 2 0 ∈ s.discoveredChannels →
      s.channel = some (data.getD 2 0) →
      s.queue = [] →
      sundanceListenStep now s data = .ok (s, [])) ∧
    (∀ (s s' : SundanceState) (data : List Nat) (acts : List Act),
      sundanceListenStep now s data = .ok (s', acts) →
      (data.getD 4 0 ≠ CLEAR_TO_SEND ∨
        data.getD 2 0 ∉ s.discoveredChannels ∨
        s.channel ≠ some (data.getD 2 0)) →
      ∃ t, s'.queue = s.queue ++ t) := by
  refine ⟨?_, ?_, ?_⟩
  · intro s data m rest hL ht hd hc hq
    have hb2 : (2 : Nat) < data.length := by omega
    have hb3 : (3 : Nat) < data.length := by omega
    have hb4 : (4 : Nat) < data.length := by omega
    have hd2 : (data[2]?).getD 0 ∈ s.discoveredChannels := by simpa using hd
    simp only [sundanceListenStep, byte_ok hb2, byte_ok hb3, byte_ok hb4,
      exceptBind_ok_eq, ht]
    simp [STATUS_UPDATE, LIGHTS_UPDATE, CLIENT_CLEAR_TO_SEND,
      CHANNEL_ASSIGNMENT_RESPONCE, EXISTING_CLIENT_REQ, CLEAR_TO_SEND,
      hd2, hc, hq]
  · intro s data hL ht hd hc hq
    have hb2 : (2 : Nat) < data.length := by omega
    have hb3 : (3 : Nat) < data.length := by omega
    have hb4 : (4 : Nat) < data.length := by omega
    have hd2 : (data[2]?).getD 0 ∈ s.discoveredChannels := by simpa using hd
    simp only [sundanceListenStep, byte_ok hb2, byte_ok hb3, byte_ok hb4,
      exceptBind_ok_eq, ht]
    simp [STATUS_UPDATE, LIGHTS_UPDATE, CLIENT_CLEAR_TO_SEND,
      CHANNEL_ASSIGNMENT_RESPONCE, EXISTING_CLIENT_REQ, CLEAR_TO_SEND,
      hd2, hc, hq]
  · intro s s' data acts h hcond
    unfold sundanceListenStep at h
    cases hb2 : byte data 2 with
    | error e => rw [hb2] at h; simp at h
    | ok c2 =>
    rw [hb2] at h
    simp only [exceptBind_ok_eq] at h
    cases hb3 : byte data 3 with
    | error e => rw [hb3] at h; simp at h
    | ok mid =>
    rw [hb3] at h
    simp only [exceptBind_ok_eq] at h
    cases hb4 : byte data 4 with
    | error e => rw [hb4] at h; simp at h
    | ok m4 =>
    rw [hb4] at h
    simp only [exceptBind_ok_eq] at h
    have hc2 : c2 = data.getD 2 0 := (byte_ok_inv hb2).2
    have hm4 : m4 = data.getD 4 0 := (byte_ok_inv hb4).2
    by_cases h16 : m4 = STATUS_UPDATE
    · rw [if_pos h16] at h
      obtain ⟨s3, hp, h⟩ := exceptBind_ok h
      injection h with h
      injection h with hs hacts
      subst hs
      exact sundanceParseC4_queueExt hp
    · rw [if_neg h16] at h
      by_cases h35 : m4 = LIGHTS_UPDATE
      · rw [if_pos h35] at h
        obtain ⟨s3, hp, h⟩ := exceptBind_ok h
        injection h with h
        injection h with hs hacts
        subst hs
        exact ⟨[], by rw [sundanceParseCA_queue hp]; simp⟩
      · rw [if_neg h35] at h
        by_cases h0 : m4 = CLIENT_CLEAR_TO_SEND
        · rw [if_pos h0] at h
          split at h <;>
            (injection h with h; injection h with hs hacts; subst hs;
             exact ⟨[], by simp⟩)
        · rw [if_neg h0] at h
          by_cases h2r : m4 = CHANNEL_ASSIGNMENT_RESPONCE
          · rw [if_pos h2r] at h
            obtain ⟨b5, hb5, h⟩ := exceptBind_ok h
            injection h with h
            injection h with hs hacts
            subst hs
            exact ⟨[], by simp⟩
          · rw [if_neg h2r] at h
            by_cases h4r : m4 = EXISTING_CLIENT_REQ
            · rw [if_pos h4r] at h
              unfold sundanceExistingClientBranch at h
              cases hch : s.channel with
              | none => rw [hch] at h; simp at h
              | some c => rw [hch] at h; simp at h
            · rw [if_neg h4r] at h
              by_cases h6 : m4 = CLEAR_TO_SEND
              · rw [if_pos h6] at h
                have hcond2 : data.getD 2 0 ∉ s.discoveredChannels ∨
                    s.channel ≠ some (data.getD 2 0) := by
                  rcases hcond with hA | hA | hA
                  · exact absurd (hm4 ▸ h6) hA
                  · exact Or.inl hA
                  · exact Or.inr hA
                by_cases hmem : c2 ∈ s.discoveredChannels
                · rw [if_pos hmem] at h
                  have hne : ¬ (some c2 = s.channel) := by
                    rcases hcond2 with hA | hA
                    · exact absurd (hc2 ▸ hmem) hA
                    · intro hx
                      exact hA (by rw [← hc2]; exact hx.symm)
                  rw [if_neg hne] at h
                  injection h with h
                  injection h with hs hacts
                  subst hs
                  exact ⟨[], by simp⟩
                · rw [if_neg hmem] at h
                  injection h with h
                  injection h with hs hacts
                  subst hs
                  exact ⟨[], by simp⟩
              · rw [if_neg h6] at h
                by_cases h23 : m4 = CC_REQ
                · rw [if_pos h23] at h
                  obtain ⟨s1, hs1, h⟩ := exceptBind_ok h
                  obtain ⟨b5, hb5, h⟩ := exceptBind_ok h
                  injection h with h
                  injection h with hs hacts
                  subst hs
                  have hq1 : s1.queue = s.queue := by
                    split at hs1
                    · split at hs1
                      · split at hs1
                        · split at hs1 <;>
                            (injection hs1 with hs1; rw [← hs1])
                        · injection hs1 with hs1
                          rw [← hs1]
                      · injection hs1 with hs1
                        rw [← hs1]
                    · injection hs1 with hs1
                      rw [← hs1]
                  exact ⟨[], by rw [hq1]; simp⟩
                · rw [if_neg h23] at h
                  injection h with h
                  injection h with hs hacts
                  subst hs
                  exact ⟨[], by simp⟩

/-- The Sundance session of the C5 witness: channel 7 assigned and already
discovered, one queued frame. -/
def c5wstate : SundanceState :=
  { sundanceInit with
      connected := true
      channel := some 7
      discoveredChannels := [7]
      queue := [[9, 9]] }

/-- Claim C5, witness for the amended theorem: an own-channel grant from an
already-discovered channel pops and writes exactly one queued frame. -/
theorem c5_witness :
    sundanceListenStep 0 c5wstate ctsFrame7 =
      .ok ({ c5wstate with queue := [] }, [.write [9, 9]]) := by
  exact (c5_transmit_slot_amended 0).1 c5wstate ctsFrame7 [9, 9] []
    (by decide) (by decide) (by decide) (by decide) rfl
